import Mathlib

/-!
Verification model of the SMTP client in `src/backend/src/email.ts` of the
water-monitoring repository.  JavaScript strings are embedded as explicit
character lists; the socket is embedded as a script of read outcomes and
per-write successes; `sendEmail` becomes a deterministic function from the
configuration, the request, the MIME boundary randomness and the script to a
result record that carries the returned/thrown outcome, the full ordered
trace of bytes handed to the socket, and counters for the protocol commands.
-/

namespace WM

/-- Characters of a JavaScript string; the whole model works over explicit
character lists. -/
abbrev Str := List Char

/-- Whitespace removed by JavaScript `String.prototype.trim` (the WhiteSpace
and LineTerminator productions, restricted to the code points this model
manipulates). -/
def jsWhite (c : Char) : Bool :=
  c = ' ' || c = '\t' || c = '\n' || c = '\r' || c = '\u000B' || c = '\u000C' ||
  c = '\u00A0' || c = '\uFEFF' || c = '\u2028' || c = '\u2029'

/-- JavaScript `s.trim()`. -/
def jsTrim (s : Str) : Str :=
  ((s.dropWhile jsWhite).reverse.dropWhile jsWhite).reverse

/-- JavaScript `s.split(",")`. -/
def splitComma : Str → List Str
  | [] => [[]]
  | c :: r =>
    if c = ',' then [] :: splitComma r
    else
      match splitComma r with
      | [] => [[c]]
      | h :: t => (c :: h) :: t

/-- Recipient parsing in `sendEmail`:
`params.to.split(",").map(s => s.trim()).filter(Boolean)`. -/
def parseRecipients (toArg : Str) : List Str :=
  ((splitComma toArg).map jsTrim).filter (fun s => s ≠ [])

/-- ASCII lower-casing of one character (the fragment of
`String.prototype.toLowerCase` and of regexp `/i` canonicalisation relevant
to the ASCII patterns used by the client). -/
def lowerChar (c : Char) : Char :=
  if 'A' ≤ c && c ≤ 'Z' then Char.ofNat (c.toNat + 32) else c

/-- ASCII `toLowerCase` over a string. -/
def toLowerStr (s : Str) : Str := s.map lowerChar

/-- Decimal digit test (`\d` of JavaScript regular expressions). -/
def digitB (c : Char) : Bool := '0' ≤ c && c ≤ '9'

/-- JavaScript `Number(s)` on the fragment the client exercises: a non-empty
all-digit string denotes that decimal number, anything else is `none`
(standing for `NaN` and the other shapes, which compare unequal to `465` in
the two places the port is consulted). -/
def jsNumberNat (s : Str) : Option Nat :=
  if s ≠ [] && s.all digitB then
    some (s.foldl (fun n c => n * 10 + (c.toNat - 48)) 0)
  else none

/-- Line terminators recognised by the `m` flag of JavaScript regular
expressions (`^` matches after any of these). -/
def isLineTerm (c : Char) : Bool :=
  c = '\n' || c = '\r' || c = '\u2028' || c = '\u2029'

/-- Three leading decimal digits of a string, as a number, when present. -/
def code3 : Str → Option Nat
  | a :: b :: c :: _ =>
    if digitB a && digitB b && digitB c then
      some ((a.toNat - 48) * 100 + (b.toNat - 48) * 10 + (c.toNat - 48))
    else none
  | _ => none

/-- Scan of `resp.match(/^(\d{3})/m)`: the characters are visited from the
left while tracking whether the current position is a line start (position
zero, or right after a line terminator); the first line-start position
followed by three digits gives the match. -/
def extractAux : Bool → Str → Option Nat
  | _, [] => none
  | atStart, c :: r =>
    match (if atStart then code3 (c :: r) else none) with
    | some n => some n
    | none => extractAux (isLineTerm c) r

/-- `extractCode` of `email.ts`: `const m = resp.match(/^(\d{3})/m); return
m ? Number(m[1]) : 0`. -/
def extractCode (s : Str) : Nat := (extractAux true s).getD 0

/-- Prefix test over character lists. -/
def startsWithStr : Str → Str → Bool
  | [], _ => true
  | _ :: _, [] => false
  | p :: ps, c :: cs => p = c && startsWithStr ps cs

/-- Substring test over character lists. -/
def containsStr (pat : Str) : Str → Bool
  | [] => startsWithStr pat []
  | c :: r => startsWithStr pat (c :: r) || containsStr pat r

/-- The test `/STARTTLS/i.test(ehlo)`: case-insensitive (ASCII folding)
substring search for `STARTTLS`. -/
def advStarttls (s : Str) : Bool := containsStr "starttls".data (toLowerStr s)

/-- UTF-8 encoding of one character (what `Buffer.from(s, "utf8")` produces;
Lean characters are exactly the scalar values, so no surrogate replacement
arises). -/
def utf8Encode (c : Char) : List Nat :=
  let n := c.toNat
  if n < 128 then [n]
  else if n < 2048 then [192 + n / 64, 128 + n % 64]
  else if n < 65536 then [224 + n / 4096, 128 + (n / 64) % 64, 128 + n % 64]
  else [240 + n / 262144, 128 + (n / 4096) % 64, 128 + (n / 64) % 64, 128 + n % 64]

/-- UTF-8 byte sequence of a string. -/
def utf8Bytes (s : Str) : List Nat := (s.map utf8Encode).flatten

/-- Character of the standard base64 alphabet at a given index. -/
def b64Char (n : Nat) : Char :=
  ("ABCDEFGHIJKLMNOPQRSTUVWXYZabcdefghijklmnopqrstuvwxyz0123456789+/".data).getD n 'A'

/-- Standard base64 with `=` padding over a byte list
(`buffer.toString("base64")`). -/
def base64 : List Nat → Str
  | [] => []
  | [a] => [b64Char (a / 4), b64Char (a % 4 * 16), '=', '=']
  | [a, b] => [b64Char (a / 4), b64Char (a % 4 * 16 + b / 16), b64Char (b % 16 * 4), '=']
  | a :: b :: c :: r =>
    b64Char (a / 4) :: b64Char (a % 4 * 16 + b / 16) ::
      b64Char (b % 16 * 4 + c / 64) :: b64Char (c % 64) :: base64 r

/-- The `b64` helper of `email.ts`:
`Buffer.from(s, "utf8").toString("base64")`. -/
def b64 (s : Str) : Str := base64 (utf8Bytes s)

/-- CRLF. -/
def crlf : Str := ['\r', '\n']

/-- The MIME document of `makeMime` in `email.ts`, with the randomness of
`Math.random().toString(16).slice(2)` passed in as `rand` (the boundary is
`"----wm" + rand`).  The header block and the body block are the `join`s of
the literal arrays of the source. -/
def makeMime (rand from_ to_ subject html : Str) : Str :=
  let boundary : Str := "----wm".data ++ rand
  let headers : Str :=
    "From: ".data ++ from_ ++ crlf ++
    "To: ".data ++ to_ ++ crlf ++
    "Subject: ".data ++ subject ++ crlf ++
    "MIME-Version: 1.0".data ++ crlf ++
    "Content-Type: multipart/alternative; boundary=\"".data ++ boundary ++ "\"".data ++ crlf
  let body : Str :=
    "--".data ++ boundary ++ crlf ++
    "Content-Type: text/html; charset=utf-8".data ++ crlf ++
    "Content-Transfer-Encoding: 7bit".data ++ crlf ++
    crlf ++
    html ++ crlf ++
    "--".data ++ boundary ++ "--".data ++ crlf
  headers ++ crlf ++ body

/-- The raw process environment as read by `env(...)` in `email.ts`; a
missing variable is the empty string. -/
structure Env where
  SMTP_HOST : Str
  SMTP_PORT : Str
  SMTP_USER : Str
  SMTP_PASS : Str
  SMTP_FROM : Str
  SMTP_STARTTLS : Str

/-- `hasSmtpEnv` of `email.ts`: the conjunction of the truthiness of the five
trimmed variables (a JavaScript string is truthy exactly when non-empty). -/
def hasSmtpEnv (e : Env) : Bool :=
  jsTrim e.SMTP_HOST ≠ [] && jsTrim e.SMTP_PORT ≠ [] && jsTrim e.SMTP_USER ≠ [] &&
  jsTrim e.SMTP_PASS ≠ [] && jsTrim e.SMTP_FROM ≠ []

/-- The argument record of `sendEmail`. -/
structure SendEmailParams where
  to_ : Str
  subject : Str
  html : Str

/-- One scripted outcome of a `readLine` call on the socket. -/
inductive ReadO
  | line (s : Str)
  | rtimeout
  | rerr
deriving DecidableEq

/-- Error kinds thrown inside one session: the `readLine` timeout, a
transport error reported by the socket, an `expect` mismatch carrying the
parsed code and the raw response, a rejected `write`, and a failed STARTTLS
wrap. -/
inductive Err
  | etimeout
  | etransport
  | eunexpected (code : Nat) (raw : Str)
  | ewrite
  | etls
deriving DecidableEq

/-- Scripted behaviour of the network for one `sendEmail` call: whether the
initial connect succeeds, whether the STARTTLS wrap succeeds, the successive
outcomes of `readLine` (an exhausted list behaves as a server that never
answers, so the timer fires), the successive callback results of `write` (an
exhausted list means every further write succeeds), and whether `sock.end()`
throws. -/
structure Script where
  connectOk : Bool := true
  tlsOk : Bool := true
  reads : List ReadO := []
  writesOk : List Bool := []
  endThrows : Bool := false

/-- Session state: the unconsumed script, the ordered trace of strings handed
to `sock.write`, the strings written in the DATA phase, whether the active
transport is the TLS wrapper, and one counter per protocol command, each
incremented exactly at the source line that writes that command. -/
structure St where
  reads : List ReadO
  writesOk : List Bool
  tlsOk : Bool
  trace : List Str := []
  payloads : List Str := []
  tlsActive : Bool := false
  starttlsCmds : Nat := 0
  upgrades : Nat := 0
  authCmds : Nat := 0
  mailFroms : Nat := 0
  dataCmds : Nat := 0
  quitCmds : Nat := 0

/-- The session computation: state in, an `Except` result and state out. -/
def M (α : Type) : Type := St → Except Err α × St

/-- Returning a value without touching the connection. -/
def M.mpure {α : Type} (a : α) : M α := fun st => (.ok a, st)

/-- Sequencing of two session steps; an error short-circuits, as a thrown
exception does between two `await`s. -/
def M.mbind {α β : Type} (x : M α) (f : α → M β) : M β := fun st =>
  match x st with
  | (.ok a, st1) => f a st1
  | (.error e, st1) => (.error e, st1)

instance : Monad M where
  pure := M.mpure
  bind := M.mbind

theorem run_bind {α β : Type} (x : M α) (f : α → M β) (st : St) :
    (x >>= f) st =
      match x st with
      | (.ok a, st1) => f a st1
      | (.error e, st1) => (.error e, st1) := rfl

theorem run_pure {α : Type} (a : α) (st : St) :
    (pure a : M α) st = (.ok a, st) := rfl

theorem run_bind_ok {α β : Type} {x : M α} {f : α → M β} {st st1 : St} {a : α}
    (h : x st = (.ok a, st1)) : (x >>= f) st = f a st1 := by
  rw [run_bind, h]

theorem run_bind_err {α β : Type} {x : M α} {f : α → M β} {st st1 : St} {e : Err}
    (h : x st = (.error e, st1)) : (x >>= f) st = (.error e, st1) := by
  rw [run_bind, h]

/-- Running `readLine(sock, timeoutMs)` against the script: consume the next
scripted outcome (no outcome scheduled means the server stays silent and the
timer fires). -/
def readLineM : M Str := fun st =>
  match st.reads with
  | [] => (.error .etimeout, st)
  | o :: rest =>
    match o with
    | .line s => (.ok s, {st with reads := rest})
    | .rtimeout => (.error .etimeout, {st with reads := rest})
    | .rerr => (.error .etransport, {st with reads := rest})

/-- Running `write(sock, s)`: the string is handed to the socket (recorded in
the trace) and the callback reports the next scripted result, an exhausted
script meaning success. -/
def writeRaw (s : Str) : M Unit := fun st =>
  let st1 := {st with trace := st.trace ++ [s]}
  match st1.writesOk with
  | [] => (.ok (), st1)
  | b :: rest =>
    (if b then .ok () else .error .ewrite, {st1 with writesOk := rest})

/-- A write together with a ghost update marking which protocol command the
written string is; the update runs exactly when the source line runs. -/
def writeTag (g : St → St) (s : Str) : M Unit := fun st => writeRaw s (g st)

/-- The write of the DATA-phase message payload. -/
def writePayload (s : Str) : M Unit := fun st =>
  writeRaw s {st with payloads := st.payloads ++ [s]}

/-- Running `expect(sock, okCodes)`: read one line, parse its code, fail
unless the code is accepted. -/
def expectM (okCodes : List Nat) : M Str := fun st =>
  match readLineM st with
  | (.ok resp, st1) =>
    if extractCode resp ∈ okCodes then (.ok resp, st1)
    else (.error (.eunexpected (extractCode resp) resp), st1)
  | (.error e, st1) => (.error e, st1)

/-- The STARTTLS wrap `sock = tls.connect({socket: sock, ...})` followed by
the `secureConnect`/`error` race: the TLS wrapper replaces the plain socket
as the active transport, and the scripted `tlsOk` decides whether the wrap
succeeds or rejects. -/
def upgradeTls : M Unit := fun st =>
  let st1 := {st with tlsActive := true, upgrades := st.upgrades + 1}
  if st1.tlsOk then (.ok (), st1) else (.error .etls, st1)

def bumpStarttls (st : St) : St := {st with starttlsCmds := st.starttlsCmds + 1}

def bumpAuth (st : St) : St := {st with authCmds := st.authCmds + 1}

def bumpMailFrom (st : St) : St := {st with mailFroms := st.mailFroms + 1}

def bumpData (st : St) : St := {st with dataCmds := st.dataCmds + 1}

def bumpQuit (st : St) : St := {st with quitCmds := st.quitCmds + 1}

def ehloCmd : Str := "EHLO water-monitoring\r\n".data

def starttlsCmd : Str := "STARTTLS\r\n".data

def authLoginCmd : Str := "AUTH LOGIN\r\n".data

def dataCmd : Str := "DATA\r\n".data

def quitCmd : Str := "QUIT\r\n".data

def mailFromCmd (f : Str) : Str := "MAIL FROM:<".data ++ f ++ ">\r\n".data

def rcptCmd (r : Str) : Str := "RCPT TO:<".data ++ r ++ ">\r\n".data

/-- Greeting and first EHLO: `expect [220]`, write EHLO, read the capability
response. -/
def greetEhlo : M Str := do
  let _ ← expectM [220]
  writeRaw ehloCmd
  readLineM

/-- The branch condition of the STARTTLS upgrade:
`port !== 465 && useStartTls && /STARTTLS/i.test(ehlo)`. -/
def starttlsCond (port : Option Nat) (useStartTls : Bool) (ehlo : Str) : Bool :=
  !(port == some 465) && useStartTls && advStarttls ehlo

/-- The optional STARTTLS upgrade block. -/
def maybeStarttls (doIt : Bool) : M Unit :=
  if doIt then do
    writeTag bumpStarttls starttlsCmd
    let _ ← expectM [220]
    upgradeTls
    writeRaw ehloCmd
    let _ ← readLineM
    pure ()
  else pure ()

/-- The AUTH LOGIN exchange. -/
def authPhase (user pass : Str) : M Unit := do
  writeTag bumpAuth authLoginCmd
  let _ ← expectM [334]
  writeRaw (b64 user ++ crlf)
  let _ ← expectM [334]
  writeRaw (b64 pass ++ crlf)
  let _ ← expectM [235]
  pure ()

/-- One `RCPT TO` per parsed recipient, in order, each expecting 250/251. -/
def rcptAll : List Str → M Unit
  | [] => pure ()
  | r :: rest => do
    writeRaw (rcptCmd r)
    let _ ← expectM [250, 251]
    rcptAll rest

/-- MAIL FROM and then the recipient loop. -/
def envelopePhase (from_ : Str) (recipients : List Str) : M Unit := do
  writeTag bumpMailFrom (mailFromCmd from_)
  let _ ← expectM [250]
  rcptAll recipients

/-- DATA, the MIME payload terminated by CRLF.CRLF, and the final 250. -/
def dataPhase (payload : Str) : M Unit := do
  writeTag bumpData dataCmd
  let _ ← expectM [354]
  writePayload payload
  let _ ← expectM [250]
  pure ()

/-- The string handed to the socket in the DATA phase: the MIME document over
the joined recipient list (`recipients.join(", ")`) followed by the
`\r\n.\r\n` terminator, as in `await write(sock, mime + "\r\n.\r\n")`. -/
def mimePayload (rand from_ : Str) (recipients : List Str) (subject html : Str) : Str :=
  makeMime rand from_ (List.intercalate ", ".data recipients) subject html
    ++ "\r\n.\r\n".data

/-- The body of the `try` block of `sendEmail`, entered once the socket is
connected. -/
def sessionBody (port : Option Nat) (useStartTls : Bool)
    (user pass from_ : Str) (recipients : List Str)
    (rand subject html : Str) : M Unit := do
  let ehlo ← greetEhlo
  maybeStarttls (starttlsCond port useStartTls ehlo)
  authPhase user pass
  envelopePhase from_ recipients
  dataPhase (mimePayload rand from_ recipients subject html)
  writeTag bumpQuit quitCmd

/-- What `sendEmail` does at its caller's boundary: return a boolean, or let
an exception escape. -/
inductive Outcome
  | ret (b : Bool)
  | threw
deriving DecidableEq

/-- Observable result of one `sendEmail` call: the outcome at the caller,
the trace of all strings handed to the socket in order, the DATA payloads,
the ghost command counters, whether a connection was attempted, and how many
times `sock.end()` was invoked. -/
structure Res where
  outcome : Outcome
  trace : List Str
  payloads : List Str
  tlsActive : Bool
  starttlsCmds : Nat
  upgrades : Nat
  authCmds : Nat
  mailFroms : Nat
  dataCmds : Nat
  quitCmds : Nat
  connAttempted : Bool
  endCalls : Nat
deriving DecidableEq

def mkRes (o : Outcome) (st : St) (connA : Bool) (ends : Nat) : Res :=
  { outcome := o, trace := st.trace, payloads := st.payloads,
    tlsActive := st.tlsActive, starttlsCmds := st.starttlsCmds,
    upgrades := st.upgrades, authCmds := st.authCmds,
    mailFroms := st.mailFroms, dataCmds := st.dataCmds,
    quitCmds := st.quitCmds, connAttempted := connA, endCalls := ends }

/-- A result with no session activity: the two early returns, and the
rejection on a failed connect (which happens before the `try`/`finally`, so
no cleanup runs). -/
def emptyRes (o : Outcome) (connA : Bool) : Res :=
  { outcome := o, trace := [], payloads := [], tlsActive := false,
    starttlsCmds := 0, upgrades := 0, authCmds := 0, mailFroms := 0,
    dataCmds := 0, quitCmds := 0, connAttempted := connA, endCalls := 0 }

/-- The `catch` block's `try { await write(sock, "QUIT") } catch {}`: the
QUIT write is attempted and any error from it is swallowed. -/
def quitSwallow (st : St) : St := (writeTag bumpQuit quitCmd st).2

def initSt (sc : Script) (is465 : Bool) : St :=
  { reads := sc.reads, writesOk := sc.writesOk, tlsOk := sc.tlsOk,
    tlsActive := is465 }

/-- The `finally { try { sock.end() } catch {} }` swallow: the result is the
same whether or not the close throws. -/
def endSwallow (thrown : Bool) (r : Res) : Res := r

/-- The full `sendEmail(params)` of `email.ts`, with the process environment,
the MIME randomness and the network script made explicit. -/
def sendEmail (e : Env) (p : SendEmailParams) (rand : Str) (sc : Script) : Res :=
  if hasSmtpEnv e = false then emptyRes (.ret false) false
  else
    let port := jsNumberNat (jsTrim e.SMTP_PORT)
    let user := jsTrim e.SMTP_USER
    let pass := jsTrim e.SMTP_PASS
    let from_ := jsTrim e.SMTP_FROM
    let useStartTls := toLowerStr (jsTrim e.SMTP_STARTTLS) == "true".data
    let recipients := parseRecipients p.to_
    if recipients = [] then emptyRes (.ret false) false
    else if sc.connectOk = false then emptyRes .threw true
    else
      match sessionBody port useStartTls user pass from_ recipients rand
          p.subject p.html (initSt sc (port == some 465)) with
      | (.ok _, st) => endSwallow sc.endThrows (mkRes (.ret true) st true 1)
      | (.error _, st) =>
        endSwallow sc.endThrows (mkRes (.ret false) (quitSwallow st) true 1)

/-- Events arriving at one `readLine` call: a `data` delivery from the
socket, an `error` event, or the firing of the `setTimeout` timer. -/
inductive REv
  | data (chunk : Str)
  | errEv
  | timerEv
deriving DecidableEq

/-- How one `readLine` promise settles. -/
inductive ROut
  | line (s : Str)
  | rtimeout
  | rfail
deriving DecidableEq

/-- State of one `readLine` call: the accumulated buffer, whether the `data`
and `error` listeners are still registered (they are added and removed
together), whether the timer is still pending, and the settled outcome if
any. -/
structure RState where
  buf : Str
  listening : Bool
  timerActive : Bool
  outcome : Option ROut
deriving DecidableEq

/-- The state right after `readLine` registers its listeners and timer. -/
def rinit : RState := { buf := [], listening := true, timerActive := true, outcome := none }

/-- One event processed by the `readLine` callbacks: `onData` appends the
chunk and, once the buffer holds a newline, runs `cleanup()` (deregistering
both listeners and clearing the timer) and resolves with the whole buffer;
`onErr` runs `cleanup()` and rejects; the timer callback runs `cleanup()`
and rejects with the timeout error.  A deregistered listener or a cleared
timer ignores its event. -/
def rstep (s : RState) (e : REv) : RState :=
  match e with
  | .data c =>
    if s.listening then
      let b := s.buf ++ c
      if '\n' ∈ b then
        { buf := b, listening := false, timerActive := false, outcome := some (.line b) }
      else
        { s with buf := b }
    else s
  | .errEv =>
    if s.listening then
      { s with listening := false, timerActive := false, outcome := some .rfail }
    else s
  | .timerEv =>
    if s.timerActive then
      { s with listening := false, timerActive := false, outcome := some .rtimeout }
    else s

/-- One `readLine` call observed over a whole sequence of events. -/
def rrun (evs : List REv) : RState := evs.foldl rstep rinit

/-! Run lemmas: the behaviour of each primitive and each phase on an explicit
state, used to execute the session symbolically in the proofs. -/

theorem readLineM_line (s : Str) (rest : List ReadO) (wk : List Bool) (tls : Bool)
    (tr pl : List Str) (tla : Bool) (c1 c2 c3 c4 c5 c6 : Nat) :
    readLineM ⟨ReadO.line s :: rest, wk, tls, tr, pl, tla, c1, c2, c3, c4, c5, c6⟩ =
      (.ok s, ⟨rest, wk, tls, tr, pl, tla, c1, c2, c3, c4, c5, c6⟩) := rfl

theorem readLineM_nil (wk : List Bool) (tls : Bool)
    (tr pl : List Str) (tla : Bool) (c1 c2 c3 c4 c5 c6 : Nat) :
    readLineM ⟨[], wk, tls, tr, pl, tla, c1, c2, c3, c4, c5, c6⟩ =
      (.error .etimeout, ⟨[], wk, tls, tr, pl, tla, c1, c2, c3, c4, c5, c6⟩) := rfl

theorem writeRaw_run (s : Str) (rds : List ReadO) (tls : Bool) (tr pl : List Str)
    (tla : Bool) (c1 c2 c3 c4 c5 c6 : Nat) :
    writeRaw s ⟨rds, [], tls, tr, pl, tla, c1, c2, c3, c4, c5, c6⟩ =
      (.ok (), ⟨rds, [], tls, tr ++ [s], pl, tla, c1, c2, c3, c4, c5, c6⟩) := rfl

theorem expectM_okRun (codes : List Nat) (s : Str) (rest : List ReadO)
    (wk : List Bool) (tls : Bool) (tr pl : List Str) (tla : Bool)
    (c1 c2 c3 c4 c5 c6 : Nat) (h : extractCode s ∈ codes) :
    expectM codes ⟨ReadO.line s :: rest, wk, tls, tr, pl, tla, c1, c2, c3, c4, c5, c6⟩ =
      (.ok s, ⟨rest, wk, tls, tr, pl, tla, c1, c2, c3, c4, c5, c6⟩) := by
  simp [expectM, readLineM, h]

theorem expectM_failRun (codes : List Nat) (s : Str) (rest : List ReadO)
    (wk : List Bool) (tls : Bool) (tr pl : List Str) (tla : Bool)
    (c1 c2 c3 c4 c5 c6 : Nat) (h : extractCode s ∉ codes) :
    expectM codes ⟨ReadO.line s :: rest, wk, tls, tr, pl, tla, c1, c2, c3, c4, c5, c6⟩ =
      (.error (.eunexpected (extractCode s) s),
        ⟨rest, wk, tls, tr, pl, tla, c1, c2, c3, c4, c5, c6⟩) := by
  simp [expectM, readLineM, h]

theorem expectM_nil (codes : List Nat) (wk : List Bool) (tls : Bool)
    (tr pl : List Str) (tla : Bool) (c1 c2 c3 c4 c5 c6 : Nat) :
    expectM codes ⟨[], wk, tls, tr, pl, tla, c1, c2, c3, c4, c5, c6⟩ =
      (.error .etimeout, ⟨[], wk, tls, tr, pl, tla, c1, c2, c3, c4, c5, c6⟩) := rfl

theorem greetEhlo_ok (g eh : Str) (hg : extractCode g = 220) (rest : List ReadO)
    (tls : Bool) (tr pl : List Str) (tla : Bool) (c1 c2 c3 c4 c5 c6 : Nat) :
    greetEhlo ⟨ReadO.line g :: ReadO.line eh :: rest, [], tls, tr, pl, tla,
        c1, c2, c3, c4, c5, c6⟩ =
      (.ok eh, ⟨rest, [], tls, tr ++ [ehloCmd], pl, tla, c1, c2, c3, c4, c5, c6⟩) := by
  have h1 := expectM_okRun [220] g (ReadO.line eh :: rest) [] tls tr pl tla
    c1 c2 c3 c4 c5 c6 (by simp [hg])
  simp [greetEhlo, run_bind, h1, writeRaw_run, readLineM_line]

theorem maybeStarttls_false (st : St) : maybeStarttls false st = (.ok (), st) := rfl

theorem maybeStarttls_trueOk (s2 e2 : Str) (hs : extractCode s2 = 220)
    (rest : List ReadO) (tr pl : List Str) (tla : Bool) (c1 c2 c3 c4 c5 c6 : Nat) :
    maybeStarttls true ⟨ReadO.line s2 :: ReadO.line e2 :: rest, [], true, tr, pl, tla,
        c1, c2, c3, c4, c5, c6⟩ =
      (.ok (), ⟨rest, [], true, tr ++ [starttlsCmd, ehloCmd], pl, true,
        c1 + 1, c2 + 1, c3, c4, c5, c6⟩) := by
  have h1 := expectM_okRun [220] s2 (ReadO.line e2 :: rest) [] true
    (tr ++ [starttlsCmd]) pl tla (c1 + 1) c2 c3 c4 c5 c6 (by simp [hs])
  simp [maybeStarttls, run_bind, writeTag, bumpStarttls, writeRaw_run, h1,
    upgradeTls, readLineM_line, run_pure]

theorem authPhase_ok (user pass : Str) (a1 a2 a3 : Str)
    (h1 : extractCode a1 = 334) (h2 : extractCode a2 = 334) (h3 : extractCode a3 = 235)
    (rest : List ReadO) (tls : Bool) (tr pl : List Str) (tla : Bool)
    (c1 c2 c3 c4 c5 c6 : Nat) :
    authPhase user pass ⟨ReadO.line a1 :: ReadO.line a2 :: ReadO.line a3 :: rest, [],
        tls, tr, pl, tla, c1, c2, c3, c4, c5, c6⟩ =
      (.ok (), ⟨rest, [], tls,
        tr ++ [authLoginCmd, b64 user ++ crlf, b64 pass ++ crlf], pl, tla,
        c1, c2, c3 + 1, c4, c5, c6⟩) := by
  have e1 := expectM_okRun [334] a1 (ReadO.line a2 :: ReadO.line a3 :: rest) [] tls
    (tr ++ [authLoginCmd]) pl tla c1 c2 (c3 + 1) c4 c5 c6 (by simp [h1])
  have e2 := expectM_okRun [334] a2 (ReadO.line a3 :: rest) [] tls
    (tr ++ [authLoginCmd, b64 user ++ crlf]) pl tla c1 c2 (c3 + 1) c4 c5 c6 (by simp [h2])
  have e3 := expectM_okRun [235] a3 rest [] tls
    (tr ++ [authLoginCmd, b64 user ++ crlf, b64 pass ++ crlf]) pl tla
    c1 c2 (c3 + 1) c4 c5 c6 (by simp [h3])
  simp only [authPhase, run_bind, writeTag, bumpAuth, writeRaw_run, run_pure]
  simp only [List.append_assoc, List.singleton_append, List.cons_append,
    List.nil_append] at e1 e2 e3 ⊢
  rw [e1]
  simp only [run_bind, writeRaw_run, List.append_assoc, List.singleton_append,
    List.cons_append, List.nil_append]
  rw [e2]
  simp only [run_bind, writeRaw_run, List.append_assoc, List.singleton_append,
    List.cons_append, List.nil_append]
  rw [e3]

theorem authPhase_fail1 (user pass : Str) (a1 : Str) (h1 : extractCode a1 ∉ [334])
    (rest : List ReadO) (tls : Bool) (tr pl : List Str) (tla : Bool)
    (c1 c2 c3 c4 c5 c6 : Nat) :
    authPhase user pass ⟨ReadO.line a1 :: rest, [], tls, tr, pl, tla,
        c1, c2, c3, c4, c5, c6⟩ =
      (.error (.eunexpected (extractCode a1) a1),
        ⟨rest, [], tls, tr ++ [authLoginCmd], pl, tla, c1, c2, c3 + 1, c4, c5, c6⟩) := by
  have e1 := expectM_failRun [334] a1 rest [] tls (tr ++ [authLoginCmd]) pl tla
    c1 c2 (c3 + 1) c4 c5 c6 h1
  simp only [authPhase, run_bind, writeTag, bumpAuth, writeRaw_run]
  rw [e1]

theorem authPhase_fail2 (user pass : Str) (a1 a2 : Str)
    (h1 : extractCode a1 = 334) (h2 : extractCode a2 ∉ [334])
    (rest : List ReadO) (tls : Bool) (tr pl : List Str) (tla : Bool)
    (c1 c2 c3 c4 c5 c6 : Nat) :
    authPhase user pass ⟨ReadO.line a1 :: ReadO.line a2 :: rest, [], tls, tr, pl, tla,
        c1, c2, c3, c4, c5, c6⟩ =
      (.error (.eunexpected (extractCode a2) a2),
        ⟨rest, [], tls, tr ++ [authLoginCmd, b64 user ++ crlf], pl, tla,
          c1, c2, c3 + 1, c4, c5, c6⟩) := by
  have e1 := expectM_okRun [334] a1 (ReadO.line a2 :: rest) [] tls
    (tr ++ [authLoginCmd]) pl tla c1 c2 (c3 + 1) c4 c5 c6 (by simp [h1])
  have e2 := expectM_failRun [334] a2 rest [] tls
    (tr ++ [authLoginCmd, b64 user ++ crlf]) pl tla c1 c2 (c3 + 1) c4 c5 c6 h2
  simp only [authPhase, run_bind, writeTag, bumpAuth, writeRaw_run]
  rw [e1]
  simp only [run_bind, writeRaw_run, List.append_assoc, List.singleton_append,
    List.cons_append, List.nil_append]
  simp only [List.append_assoc, List.singleton_append, List.cons_append,
    List.nil_append] at e2
  rw [e2]

theorem authPhase_fail3 (user pass : Str) (a1 a2 a3 : Str)
    (h1 : extractCode a1 = 334) (h2 : extractCode a2 = 334) (h3 : extractCode a3 ∉ [235])
    (rest : List ReadO) (tls : Bool) (tr pl : List Str) (tla : Bool)
    (c1 c2 c3 c4 c5 c6 : Nat) :
    authPhase user pass ⟨ReadO.line a1 :: ReadO.line a2 :: ReadO.line a3 :: rest, [],
        tls, tr, pl, tla, c1, c2, c3, c4, c5, c6⟩ =
      (.error (.eunexpected (extractCode a3) a3),
        ⟨rest, [], tls, tr ++ [authLoginCmd, b64 user ++ crlf, b64 pass ++ crlf],
          pl, tla, c1, c2, c3 + 1, c4, c5, c6⟩) := by
  have e1 := expectM_okRun [334] a1 (ReadO.line a2 :: ReadO.line a3 :: rest) [] tls
    (tr ++ [authLoginCmd]) pl tla c1 c2 (c3 + 1) c4 c5 c6 (by simp [h1])
  have e2 := expectM_okRun [334] a2 (ReadO.line a3 :: rest) [] tls
    (tr ++ [authLoginCmd, b64 user ++ crlf]) pl tla c1 c2 (c3 + 1) c4 c5 c6 (by simp [h2])
  have e3 := expectM_failRun [235] a3 rest [] tls
    (tr ++ [authLoginCmd, b64 user ++ crlf, b64 pass ++ crlf]) pl tla
    c1 c2 (c3 + 1) c4 c5 c6 h3
  simp only [authPhase, run_bind, writeTag, bumpAuth, writeRaw_run]
  rw [e1]
  simp only [run_bind, writeRaw_run, List.append_assoc, List.singleton_append,
    List.cons_append, List.nil_append]
  simp only [List.append_assoc, List.singleton_append, List.cons_append,
    List.nil_append] at e2 e3
  rw [e2]
  simp only [run_bind, writeRaw_run, List.append_assoc, List.singleton_append,
    List.cons_append, List.nil_append]
  rw [e3]

theorem rcptAll_nilRun (st : St) : rcptAll [] st = (.ok (), st) := rfl

theorem rcptAll_okRun (rs : List Str) (resps : List Str)
    (hlen : resps.length = rs.length)
    (hcodes : ∀ x ∈ resps, extractCode x ∈ [250, 251]) :
    ∀ (rest : List ReadO) (tls : Bool) (tr pl : List Str) (tla : Bool)
      (c1 c2 c3 c4 c5 c6 : Nat),
    rcptAll rs ⟨resps.map ReadO.line ++ rest, [], tls, tr, pl, tla,
        c1, c2, c3, c4, c5, c6⟩ =
      (.ok (), ⟨rest, [], tls, tr ++ rs.map rcptCmd, pl, tla,
        c1, c2, c3, c4, c5, c6⟩) := by
  induction rs generalizing resps with
  | nil =>
    intro rest tls tr pl tla c1 c2 c3 c4 c5 c6
    have : resps = [] := List.length_eq_zero.mp hlen
    subst this
    simp [rcptAll_nilRun]
  | cons r rs ih =>
    intro rest tls tr pl tla c1 c2 c3 c4 c5 c6
    match resps, hlen with
    | x :: resps, hlen =>
      have hx : extractCode x ∈ [250, 251] := hcodes x (by simp)
      have hrest : ∀ y ∈ resps, extractCode y ∈ [250, 251] := fun y hy =>
        hcodes y (by simp [hy])
      have hlen' : resps.length = rs.length := by simpa using hlen
      have e1 := expectM_okRun [250, 251] x (resps.map ReadO.line ++ rest) [] tls
        (tr ++ [rcptCmd r]) pl tla c1 c2 c3 c4 c5 c6 hx
      simp only [rcptAll, List.map_cons, List.cons_append]
      rw [run_bind_ok (writeRaw_run (rcptCmd r) _ _ _ _ _ _ _ _ _ _ _),
        run_bind_ok e1,
        ih resps hlen' hrest rest tls (tr ++ [rcptCmd r]) pl tla c1 c2 c3 c4 c5 c6]
      simp

theorem rcptAll_failRun (good : List Str) (r : Str) (after : List Str)
    (resps : List Str) (bad : Str)
    (hlen : resps.length = good.length)
    (hcodes : ∀ x ∈ resps, extractCode x ∈ [250, 251])
    (hbad : extractCode bad ∉ [250, 251]) :
    ∀ (rest : List ReadO) (tls : Bool) (tr pl : List Str) (tla : Bool)
      (c1 c2 c3 c4 c5 c6 : Nat),
    rcptAll (good ++ r :: after)
        ⟨resps.map ReadO.line ++ ReadO.line bad :: rest, [], tls, tr, pl, tla,
          c1, c2, c3, c4, c5, c6⟩ =
      (.error (.eunexpected (extractCode bad) bad),
        ⟨rest, [], tls, tr ++ good.map rcptCmd ++ [rcptCmd r], pl, tla,
          c1, c2, c3, c4, c5, c6⟩) := by
  induction good generalizing resps with
  | nil =>
    intro rest tls tr pl tla c1 c2 c3 c4 c5 c6
    have : resps = [] := List.length_eq_zero.mp hlen
    subst this
    have e1 := expectM_failRun [250, 251] bad rest [] tls
      (tr ++ [rcptCmd r]) pl tla c1 c2 c3 c4 c5 c6 hbad
    simp only [rcptAll, List.map_nil, List.nil_append, List.cons_append]
    rw [run_bind_ok (writeRaw_run (rcptCmd r) _ _ _ _ _ _ _ _ _ _ _),
      run_bind_err e1]
    simp
  | cons gr good ih =>
    intro rest tls tr pl tla c1 c2 c3 c4 c5 c6
    match resps, hlen with
    | x :: resps, hlen =>
      have hx : extractCode x ∈ [250, 251] := hcodes x (by simp)
      have hrest : ∀ y ∈ resps, extractCode y ∈ [250, 251] := fun y hy =>
        hcodes y (by simp [hy])
      have hlen' : resps.length = good.length := by simpa using hlen
      have e1 := expectM_okRun [250, 251] x
        (resps.map ReadO.line ++ ReadO.line bad :: rest) [] tls
        (tr ++ [rcptCmd gr]) pl tla c1 c2 c3 c4 c5 c6 hx
      simp only [rcptAll, List.map_cons, List.cons_append]
      rw [run_bind_ok (writeRaw_run (rcptCmd gr) _ _ _ _ _ _ _ _ _ _ _),
        run_bind_ok e1]
      simp only [List.append_eq]
      rw [ih resps hlen' hrest rest tls (tr ++ [rcptCmd gr]) pl tla c1 c2 c3 c4 c5 c6]
      simp

theorem envelopePhase_ok (from_ : Str) (rs : List Str) (mr : Str)
    (hm : extractCode mr = 250) (resps : List Str)
    (hlen : resps.length = rs.length)
    (hcodes : ∀ x ∈ resps, extractCode x ∈ [250, 251])
    (rest : List ReadO) (tls : Bool) (tr pl : List Str) (tla : Bool)
    (c1 c2 c3 c4 c5 c6 : Nat) :
    envelopePhase from_ rs ⟨ReadO.line mr :: (resps.map ReadO.line ++ rest), [], tls,
        tr, pl, tla, c1, c2, c3, c4, c5, c6⟩ =
      (.ok (), ⟨rest, [], tls, tr ++ mailFromCmd from_ :: rs.map rcptCmd, pl, tla,
        c1, c2, c3, c4 + 1, c5, c6⟩) := by
  have e1 := expectM_okRun [250] mr (resps.map ReadO.line ++ rest) [] tls
    (tr ++ [mailFromCmd from_]) pl tla c1 c2 c3 (c4 + 1) c5 c6 (by simp [hm])
  have w1 : writeTag bumpMailFrom (mailFromCmd from_)
      ⟨ReadO.line mr :: (resps.map ReadO.line ++ rest), [], tls, tr, pl, tla,
        c1, c2, c3, c4, c5, c6⟩ =
      (.ok (), ⟨ReadO.line mr :: (resps.map ReadO.line ++ rest), [], tls,
        tr ++ [mailFromCmd from_], pl, tla, c1, c2, c3, c4 + 1, c5, c6⟩) := rfl
  simp only [envelopePhase, List.cons_append]
  rw [run_bind_ok w1, run_bind_ok e1,
    rcptAll_okRun rs resps hlen hcodes rest tls (tr ++ [mailFromCmd from_]) pl tla
      c1 c2 c3 (c4 + 1) c5 c6]
  simp

theorem dataPhase_ok (payload : Str) (d fin : Str)
    (hd : extractCode d = 354) (hf : extractCode fin = 250)
    (rest : List ReadO) (tls : Bool) (tr pl : List Str) (tla : Bool)
    (c1 c2 c3 c4 c5 c6 : Nat) :
    dataPhase payload ⟨ReadO.line d :: ReadO.line fin :: rest, [], tls, tr, pl, tla,
        c1, c2, c3, c4, c5, c6⟩ =
      (.ok (), ⟨rest, [], tls, tr ++ [dataCmd, payload], pl ++ [payload], tla,
        c1, c2, c3, c4, c5 + 1, c6⟩) := by
  have e1 := expectM_okRun [354] d (ReadO.line fin :: rest) [] tls
    (tr ++ [dataCmd]) pl tla c1 c2 c3 c4 (c5 + 1) c6 (by simp [hd])
  have e2 : expectM [250] ⟨ReadO.line fin :: rest, [], tls,
      (tr ++ [dataCmd]) ++ [payload], pl ++ [payload], tla,
      c1, c2, c3, c4, c5 + 1, c6⟩ =
      (.ok fin, ⟨rest, [], tls, (tr ++ [dataCmd]) ++ [payload], pl ++ [payload], tla,
        c1, c2, c3, c4, c5 + 1, c6⟩) :=
    expectM_okRun [250] fin rest [] tls ((tr ++ [dataCmd]) ++ [payload])
      (pl ++ [payload]) tla c1 c2 c3 c4 (c5 + 1) c6 (by simp [hf])
  have e3 : writePayload payload ⟨ReadO.line fin :: rest, [], tls, tr ++ [dataCmd],
      pl, tla, c1, c2, c3, c4, c5 + 1, c6⟩ =
      (.ok (), ⟨ReadO.line fin :: rest, [], tls, (tr ++ [dataCmd]) ++ [payload],
        pl ++ [payload], tla, c1, c2, c3, c4, c5 + 1, c6⟩) := rfl
  have w1 : writeTag bumpData dataCmd
      ⟨ReadO.line d :: ReadO.line fin :: rest, [], tls, tr, pl, tla,
        c1, c2, c3, c4, c5, c6⟩ =
      (.ok (), ⟨ReadO.line d :: ReadO.line fin :: rest, [], tls, tr ++ [dataCmd],
        pl, tla, c1, c2, c3, c4, c5 + 1, c6⟩) := rfl
  simp only [dataPhase]
  rw [run_bind_ok w1, run_bind_ok e1, run_bind_ok e3, run_bind_ok e2]
  simp [run_pure]

theorem envelopePhase_rcptFail (from_ : Str) (good : List Str) (r : Str)
    (after : List Str) (mr : Str) (hm : extractCode mr = 250)
    (resps : List Str) (bad : Str)
    (hlen : resps.length = good.length)
    (hcodes : ∀ x ∈ resps, extractCode x ∈ [250, 251])
    (hbad : extractCode bad ∉ [250, 251])
    (rest : List ReadO) (tls : Bool) (tr pl : List Str) (tla : Bool)
    (c1 c2 c3 c4 c5 c6 : Nat) :
    envelopePhase from_ (good ++ r :: after)
        ⟨ReadO.line mr :: (resps.map ReadO.line ++ ReadO.line bad :: rest), [], tls,
          tr, pl, tla, c1, c2, c3, c4, c5, c6⟩ =
      (.error (.eunexpected (extractCode bad) bad),
        ⟨rest, [], tls, tr ++ mailFromCmd from_ :: (good.map rcptCmd ++ [rcptCmd r]),
          pl, tla, c1, c2, c3, c4 + 1, c5, c6⟩) := by
  have e1 := expectM_okRun [250] mr (resps.map ReadO.line ++ ReadO.line bad :: rest)
    [] tls (tr ++ [mailFromCmd from_]) pl tla c1 c2 c3 (c4 + 1) c5 c6 (by simp [hm])
  have w1 : writeTag bumpMailFrom (mailFromCmd from_)
      ⟨ReadO.line mr :: (resps.map ReadO.line ++ ReadO.line bad :: rest), [], tls,
        tr, pl, tla, c1, c2, c3, c4, c5, c6⟩ =
      (.ok (), ⟨ReadO.line mr :: (resps.map ReadO.line ++ ReadO.line bad :: rest),
        [], tls, tr ++ [mailFromCmd from_], pl, tla,
        c1, c2, c3, c4 + 1, c5, c6⟩) := rfl
  simp only [envelopePhase]
  rw [run_bind_ok w1, run_bind_ok e1,
    rcptAll_failRun good r after resps bad hlen hcodes hbad rest tls
      (tr ++ [mailFromCmd from_]) pl tla c1 c2 c3 (c4 + 1) c5 c6]
  simp

theorem sessionBody_okStarttls (port : Option Nat) (uST : Bool)
    (user pass from_ : Str) (rs : List Str) (rand subject html : Str)
    (g eh s2 e2 a1 a2 a3 mr d fin : Str) (resps : List Str) (rest : List ReadO)
    (hg : extractCode g = 220) (hcond : starttlsCond port uST eh = true)
    (hs : extractCode s2 = 220)
    (h1 : extractCode a1 = 334) (h2 : extractCode a2 = 334) (h3 : extractCode a3 = 235)
    (hm : extractCode mr = 250)
    (hlen : resps.length = rs.length)
    (hcodes : ∀ x ∈ resps, extractCode x ∈ [250, 251])
    (hd : extractCode d = 354) (hf : extractCode fin = 250)
    (tr pl : List Str) (tla : Bool) (c1 c2 c3 c4 c5 c6 : Nat) :
    sessionBody port uST user pass from_ rs rand subject html
      ⟨ReadO.line g :: ReadO.line eh :: ReadO.line s2 :: ReadO.line e2 ::
        ReadO.line a1 :: ReadO.line a2 :: ReadO.line a3 :: ReadO.line mr ::
        (resps.map ReadO.line ++ (ReadO.line d :: ReadO.line fin :: rest)), [], true,
        tr, pl, tla, c1, c2, c3, c4, c5, c6⟩ =
      (.ok (), ⟨rest, [], true,
        tr ++ [ehloCmd, starttlsCmd, ehloCmd, authLoginCmd, b64 user ++ crlf,
          b64 pass ++ crlf, mailFromCmd from_] ++ rs.map rcptCmd ++
          [dataCmd, mimePayload rand from_ rs subject html, quitCmd],
        pl ++ [mimePayload rand from_ rs subject html], true,
        c1 + 1, c2 + 1, c3 + 1, c4 + 1, c5 + 1, c6 + 1⟩) := by
  simp only [sessionBody]
  rw [run_bind_ok (greetEhlo_ok g eh hg _ _ _ _ _ _ _ _ _ _ _)]
  simp only [hcond]
  rw [run_bind_ok (maybeStarttls_trueOk s2 e2 hs _ _ _ _ _ _ _ _ _ _)]
  rw [run_bind_ok (authPhase_ok user pass a1 a2 a3 h1 h2 h3 _ _ _ _ _ _ _ _ _ _ _)]
  rw [run_bind_ok (envelopePhase_ok from_ rs mr hm resps hlen hcodes _ _ _ _ _ _ _ _ _ _ _)]
  rw [run_bind_ok (dataPhase_ok (mimePayload rand from_ rs subject html) d fin hd hf
    _ _ _ _ _ _ _ _ _ _ _)]
  simp [writeTag, bumpQuit, writeRaw_run, List.append_assoc]

theorem sessionBody_okPlain (port : Option Nat) (uST : Bool)
    (user pass from_ : Str) (rs : List Str) (rand subject html : Str)
    (g eh a1 a2 a3 mr d fin : Str) (resps : List Str) (rest : List ReadO)
    (hg : extractCode g = 220) (hcond : starttlsCond port uST eh = false)
    (h1 : extractCode a1 = 334) (h2 : extractCode a2 = 334) (h3 : extractCode a3 = 235)
    (hm : extractCode mr = 250)
    (hlen : resps.length = rs.length)
    (hcodes : ∀ x ∈ resps, extractCode x ∈ [250, 251])
    (hd : extractCode d = 354) (hf : extractCode fin = 250)
    (tls : Bool) (tr pl : List Str) (tla : Bool) (c1 c2 c3 c4 c5 c6 : Nat) :
    sessionBody port uST user pass from_ rs rand subject html
      ⟨ReadO.line g :: ReadO.line eh ::
        ReadO.line a1 :: ReadO.line a2 :: ReadO.line a3 :: ReadO.line mr ::
        (resps.map ReadO.line ++ (ReadO.line d :: ReadO.line fin :: rest)), [], tls,
        tr, pl, tla, c1, c2, c3, c4, c5, c6⟩ =
      (.ok (), ⟨rest, [], tls,
        tr ++ [ehloCmd, authLoginCmd, b64 user ++ crlf,
          b64 pass ++ crlf, mailFromCmd from_] ++ rs.map rcptCmd ++
          [dataCmd, mimePayload rand from_ rs subject html, quitCmd],
        pl ++ [mimePayload rand from_ rs subject html], tla,
        c1, c2, c3 + 1, c4 + 1, c5 + 1, c6 + 1⟩) := by
  simp only [sessionBody]
  rw [run_bind_ok (greetEhlo_ok g eh hg _ _ _ _ _ _ _ _ _ _ _)]
  simp only [hcond]
  rw [run_bind_ok (maybeStarttls_false _)]
  rw [run_bind_ok (authPhase_ok user pass a1 a2 a3 h1 h2 h3 _ _ _ _ _ _ _ _ _ _ _)]
  rw [run_bind_ok (envelopePhase_ok from_ rs mr hm resps hlen hcodes _ _ _ _ _ _ _ _ _ _ _)]
  rw [run_bind_ok (dataPhase_ok (mimePayload rand from_ rs subject html) d fin hd hf
    _ _ _ _ _ _ _ _ _ _ _)]
  simp [writeTag, bumpQuit, writeRaw_run, List.append_assoc]

theorem sessionBody_rcptFail (port : Option Nat) (uST : Bool)
    (user pass from_ : Str) (good : List Str) (r : Str) (after : List Str)
    (rand subject html : Str)
    (g eh a1 a2 a3 mr bad : Str) (resps : List Str) (rest : List ReadO)
    (hg : extractCode g = 220) (hcond : starttlsCond port uST eh = false)
    (h1 : extractCode a1 = 334) (h2 : extractCode a2 = 334) (h3 : extractCode a3 = 235)
    (hm : extractCode mr = 250)
    (hlen : resps.length = good.length)
    (hcodes : ∀ x ∈ resps, extractCode x ∈ [250, 251])
    (hbad : extractCode bad ∉ [250, 251])
    (tls : Bool) (tr pl : List Str) (tla : Bool) (c1 c2 c3 c4 c5 c6 : Nat) :
    sessionBody port uST user pass from_ (good ++ r :: after) rand subject html
      ⟨ReadO.line g :: ReadO.line eh ::
        ReadO.line a1 :: ReadO.line a2 :: ReadO.line a3 :: ReadO.line mr ::
        (resps.map ReadO.line ++ ReadO.line bad :: rest), [], tls,
        tr, pl, tla, c1, c2, c3, c4, c5, c6⟩ =
      (.error (.eunexpected (extractCode bad) bad),
        ⟨rest, [], tls,
          tr ++ [ehloCmd, authLoginCmd, b64 user ++ crlf, b64 pass ++ crlf,
            mailFromCmd from_] ++ good.map rcptCmd ++ [rcptCmd r],
          pl, tla, c1, c2, c3 + 1, c4 + 1, c5, c6⟩) := by
  simp only [sessionBody]
  rw [run_bind_ok (greetEhlo_ok g eh hg _ _ _ _ _ _ _ _ _ _ _)]
  simp only [hcond]
  rw [run_bind_ok (maybeStarttls_false _)]
  rw [run_bind_ok (authPhase_ok user pass a1 a2 a3 h1 h2 h3 _ _ _ _ _ _ _ _ _ _ _)]
  rw [run_bind_err (envelopePhase_rcptFail from_ good r after mr hm resps bad
    hlen hcodes hbad _ _ _ _ _ _ _ _ _ _ _)]
  simp [List.append_assoc]

theorem quitSwallow_run (rds : List ReadO) (tls : Bool) (tr pl : List Str)
    (tla : Bool) (c1 c2 c3 c4 c5 c6 : Nat) :
    quitSwallow ⟨rds, [], tls, tr, pl, tla, c1, c2, c3, c4, c5, c6⟩ =
      ⟨rds, [], tls, tr ++ [quitCmd], pl, tla, c1, c2, c3, c4, c5, c6 + 1⟩ := rfl

theorem quitSwallow_cons (b : Bool) (wk : List Bool) (rds : List ReadO) (tls : Bool)
    (tr pl : List Str) (tla : Bool) (c1 c2 c3 c4 c5 c6 : Nat) :
    quitSwallow ⟨rds, b :: wk, tls, tr, pl, tla, c1, c2, c3, c4, c5, c6⟩ =
      ⟨rds, wk, tls, tr ++ [quitCmd], pl, tla, c1, c2, c3, c4, c5, c6 + 1⟩ := by
  cases b <;> rfl

theorem sendEmail_run (e : Env) (p : SendEmailParams) (rand : Str) (sc : Script)
    (hE : hasSmtpEnv e = true) (hR : parseRecipients p.to_ ≠ [])
    (hC : sc.connectOk = true) :
    sendEmail e p rand sc =
      match sessionBody (jsNumberNat (jsTrim e.SMTP_PORT))
          (toLowerStr (jsTrim e.SMTP_STARTTLS) == "true".data)
          (jsTrim e.SMTP_USER) (jsTrim e.SMTP_PASS) (jsTrim e.SMTP_FROM)
          (parseRecipients p.to_) rand p.subject p.html
          (initSt sc (jsNumberNat (jsTrim e.SMTP_PORT) == some 465)) with
      | (.ok _, st) => mkRes (.ret true) st true 1
      | (.error _, st) => mkRes (.ret false) (quitSwallow st) true 1 := by
  simp [sendEmail, hE, hR, hC, endSwallow]

/-- The tail of the session after the greeting and the optional STARTTLS
block: authentication, envelope, data, quit. -/
def authTail (user pass from_ : Str) (rs : List Str) (payload : Str) : M Unit := do
  authPhase user pass
  envelopePhase from_ rs
  dataPhase payload
  writeTag bumpQuit quitCmd

theorem sessionBody_postGreetPlain (port : Option Nat) (uST : Bool)
    (user pass from_ : Str) (rs : List Str) (rand subject html : Str)
    (g eh : Str) (hg : extractCode g = 220)
    (hcond : starttlsCond port uST eh = false)
    (rest : List ReadO) (tls : Bool) (tr pl : List Str) (tla : Bool)
    (c1 c2 c3 c4 c5 c6 : Nat) :
    sessionBody port uST user pass from_ rs rand subject html
      ⟨ReadO.line g :: ReadO.line eh :: rest, [], tls, tr, pl, tla,
        c1, c2, c3, c4, c5, c6⟩ =
      authTail user pass from_ rs (mimePayload rand from_ rs subject html)
        ⟨rest, [], tls, tr ++ [ehloCmd], pl, tla, c1, c2, c3, c4, c5, c6⟩ := by
  simp only [sessionBody]
  rw [run_bind_ok (greetEhlo_ok g eh hg _ _ _ _ _ _ _ _ _ _ _)]
  simp only [hcond]
  rw [run_bind_ok (maybeStarttls_false _)]
  rfl

theorem sessionBody_postGreetTls (port : Option Nat) (uST : Bool)
    (user pass from_ : Str) (rs : List Str) (rand subject html : Str)
    (g eh s2 e2 : Str) (hg : extractCode g = 220)
    (hcond : starttlsCond port uST eh = true) (hs : extractCode s2 = 220)
    (rest : List ReadO) (tr pl : List Str) (tla : Bool)
    (c1 c2 c3 c4 c5 c6 : Nat) :
    sessionBody port uST user pass from_ rs rand subject html
      ⟨ReadO.line g :: ReadO.line eh :: ReadO.line s2 :: ReadO.line e2 :: rest,
        [], true, tr, pl, tla, c1, c2, c3, c4, c5, c6⟩ =
      authTail user pass from_ rs (mimePayload rand from_ rs subject html)
        ⟨rest, [], true, tr ++ [ehloCmd, starttlsCmd, ehloCmd], pl, true,
          c1 + 1, c2 + 1, c3, c4, c5, c6⟩ := by
  simp only [sessionBody]
  rw [run_bind_ok (greetEhlo_ok g eh hg _ _ _ _ _ _ _ _ _ _ _)]
  simp only [hcond]
  rw [run_bind_ok (maybeStarttls_trueOk s2 e2 hs _ _ _ _ _ _ _ _ _ _)]
  simp only [List.append_assoc, List.cons_append, List.singleton_append,
    List.nil_append]
  rfl

/-- A session step that never issues the STARTTLS command and never attempts
a TLS wrap: the STARTTLS counter, the upgrade counter and the active-TLS
flag pass through unchanged, and the trace is only ever appended to. -/
def PresSess {α : Type} (x : M α) : Prop :=
  ∀ st : St, ((x st).2.starttlsCmds = st.starttlsCmds) ∧
    ((x st).2.upgrades = st.upgrades) ∧
    ((x st).2.tlsActive = st.tlsActive) ∧
    ∃ t : List Str, (x st).2.trace = st.trace ++ t

theorem presSess_bind {α β : Type} {x : M α} {f : α → M β}
    (hx : PresSess x) (hf : ∀ a, PresSess (f a)) : PresSess (x >>= f) := by
  intro st
  rcases hp : x st with ⟨r, st1⟩
  have h1 := hx st
  rw [hp] at h1
  cases r with
  | ok a =>
    rw [run_bind_ok hp]
    have h2 := hf a st1
    refine ⟨h2.1.trans h1.1, h2.2.1.trans h1.2.1, h2.2.2.1.trans h1.2.2.1, ?_⟩
    obtain ⟨t1, ht1⟩ := h1.2.2.2
    obtain ⟨t2, ht2⟩ := h2.2.2.2
    exact ⟨t1 ++ t2, by rw [ht2, ht1, List.append_assoc]⟩
  | error err =>
    rw [run_bind_err hp]
    exact h1

theorem presSess_pure {α : Type} (a : α) : PresSess (pure a : M α) := by
  intro st
  exact ⟨rfl, rfl, rfl, [], (List.append_nil _).symm⟩

theorem presSess_readLineM : PresSess readLineM := by
  intro st
  rcases st with ⟨rds, wk, tls, tr, pl, tla, c1, c2, c3, c4, c5, c6⟩
  cases rds with
  | nil => exact ⟨rfl, rfl, rfl, [], (List.append_nil _).symm⟩
  | cons o rest => cases o <;> exact ⟨rfl, rfl, rfl, [], (List.append_nil _).symm⟩

theorem presSess_writeRaw (s : Str) : PresSess (writeRaw s) := by
  intro st
  rcases st with ⟨rds, wk, tls, tr, pl, tla, c1, c2, c3, c4, c5, c6⟩
  cases wk with
  | nil => exact ⟨rfl, rfl, rfl, [s], rfl⟩
  | cons b rest => exact ⟨rfl, rfl, rfl, [s], rfl⟩

theorem presSess_expectM (codes : List Nat) : PresSess (expectM codes) := by
  intro st
  rcases st with ⟨rds, wk, tls, tr, pl, tla, c1, c2, c3, c4, c5, c6⟩
  cases rds with
  | nil => exact ⟨rfl, rfl, rfl, [], (List.append_nil _).symm⟩
  | cons o rest =>
    cases o with
    | line x =>
      simp only [expectM, readLineM]
      split <;> exact ⟨rfl, rfl, rfl, [], (List.append_nil _).symm⟩
    | rtimeout => exact ⟨rfl, rfl, rfl, [], (List.append_nil _).symm⟩
    | rerr => exact ⟨rfl, rfl, rfl, [], (List.append_nil _).symm⟩

theorem presSess_writeTag (g : St → St) (s : Str)
    (hg : ∀ st : St, ((g st).starttlsCmds = st.starttlsCmds) ∧
      ((g st).upgrades = st.upgrades) ∧ ((g st).tlsActive = st.tlsActive) ∧
      ((g st).trace = st.trace)) : PresSess (writeTag g s) := by
  intro st
  have h1 := presSess_writeRaw s (g st)
  have h2 := hg st
  refine ⟨h1.1.trans h2.1, h1.2.1.trans h2.2.1, h1.2.2.1.trans h2.2.2.1, ?_⟩
  obtain ⟨t, ht⟩ := h1.2.2.2
  refine ⟨t, ?_⟩
  show (writeRaw s (g st)).2.trace = st.trace ++ t
  rw [ht, h2.2.2.2]

theorem presSess_writePayload (s : Str) : PresSess (writePayload s) := by
  intro st
  exact presSess_writeRaw s {st with payloads := st.payloads ++ [s]}

theorem presSess_rcptAll (rs : List Str) : PresSess (rcptAll rs) := by
  induction rs with
  | nil => exact presSess_pure ()
  | cons r rest ih =>
    exact presSess_bind (presSess_writeRaw (rcptCmd r))
      (fun _ => presSess_bind (presSess_expectM [250, 251]) (fun _ => ih))

theorem presSess_authPhase (user pass : Str) : PresSess (authPhase user pass) := by
  refine presSess_bind (presSess_writeTag bumpAuth authLoginCmd ?_) (fun _ => ?_)
  · intro st; exact ⟨rfl, rfl, rfl, rfl⟩
  · exact presSess_bind (presSess_expectM [334]) (fun _ =>
      presSess_bind (presSess_writeRaw (b64 user ++ crlf)) (fun _ =>
        presSess_bind (presSess_expectM [334]) (fun _ =>
          presSess_bind (presSess_writeRaw (b64 pass ++ crlf)) (fun _ =>
            presSess_bind (presSess_expectM [235]) (fun _ => presSess_pure ())))))

theorem presSess_envelopePhase (from_ : Str) (rs : List Str) :
    PresSess (envelopePhase from_ rs) := by
  refine presSess_bind (presSess_writeTag bumpMailFrom (mailFromCmd from_) ?_)
    (fun _ => ?_)
  · intro st; exact ⟨rfl, rfl, rfl, rfl⟩
  · exact presSess_bind (presSess_expectM [250]) (fun _ => presSess_rcptAll rs)

theorem presSess_dataPhase (payload : Str) : PresSess (dataPhase payload) := by
  refine presSess_bind (presSess_writeTag bumpData dataCmd ?_) (fun _ => ?_)
  · intro st; exact ⟨rfl, rfl, rfl, rfl⟩
  · exact presSess_bind (presSess_expectM [354]) (fun _ =>
      presSess_bind (presSess_writePayload payload) (fun _ =>
        presSess_bind (presSess_expectM [250]) (fun _ => presSess_pure ())))

theorem presSess_authTail (user pass from_ : Str) (rs : List Str) (payload : Str) :
    PresSess (authTail user pass from_ rs payload) := by
  exact presSess_bind (presSess_authPhase user pass) (fun _ =>
    presSess_bind (presSess_envelopePhase from_ rs) (fun _ =>
      presSess_bind (presSess_dataPhase payload) (fun _ =>
        presSess_writeTag bumpQuit quitCmd (fun st => ⟨rfl, rfl, rfl, rfl⟩))))

theorem quitSwallow_pres (st : St) :
    ((quitSwallow st).starttlsCmds = st.starttlsCmds) ∧
      ((quitSwallow st).upgrades = st.upgrades) ∧
      ((quitSwallow st).tlsActive = st.tlsActive) ∧
      ∃ t : List Str, (quitSwallow st).trace = st.trace ++ t := by
  have h1 := presSess_writeRaw quitCmd (bumpQuit st)
  exact ⟨h1.1, h1.2.1, h1.2.2.1, h1.2.2.2⟩

theorem sendEmail_run_ok (e : Env) (p : SendEmailParams) (rand : Str) (sc : Script)
    (hE : hasSmtpEnv e = true) (hR : parseRecipients p.to_ ≠ [])
    (hC : sc.connectOk = true) {a : Unit} {st : St}
    (hS : sessionBody (jsNumberNat (jsTrim e.SMTP_PORT))
        (toLowerStr (jsTrim e.SMTP_STARTTLS) == "true".data)
        (jsTrim e.SMTP_USER) (jsTrim e.SMTP_PASS) (jsTrim e.SMTP_FROM)
        (parseRecipients p.to_) rand p.subject p.html
        (initSt sc (jsNumberNat (jsTrim e.SMTP_PORT) == some 465)) = (.ok a, st)) :
    sendEmail e p rand sc = mkRes (.ret true) st true 1 := by
  rw [sendEmail_run e p rand sc hE hR hC, hS]

theorem sendEmail_run_err (e : Env) (p : SendEmailParams) (rand : Str) (sc : Script)
    (hE : hasSmtpEnv e = true) (hR : parseRecipients p.to_ ≠ [])
    (hC : sc.connectOk = true) {err : Err} {st : St}
    (hS : sessionBody (jsNumberNat (jsTrim e.SMTP_PORT))
        (toLowerStr (jsTrim e.SMTP_STARTTLS) == "true".data)
        (jsTrim e.SMTP_USER) (jsTrim e.SMTP_PASS) (jsTrim e.SMTP_FROM)
        (parseRecipients p.to_) rand p.subject p.html
        (initSt sc (jsNumberNat (jsTrim e.SMTP_PORT) == some 465)) = (.error err, st)) :
    sendEmail e p rand sc = mkRes (.ret false) (quitSwallow st) true 1 := by
  rw [sendEmail_run e p rand sc hE hR hC, hS]

/-! Claim theorems. -/

/-- C8: for any configuration missing one of host, port, user, pass, or
from-address (empty after trimming), and likewise for any recipient string
that parses to an empty list, `sendEmail` returns `false` without attempting
a connection (no connect, nothing written, no close). -/
theorem claim_C8 (e : Env) (p : SendEmailParams) (rand : Str) (sc : Script)
    (h : jsTrim e.SMTP_HOST = [] ∨ jsTrim e.SMTP_PORT = [] ∨
      jsTrim e.SMTP_USER = [] ∨ jsTrim e.SMTP_PASS = [] ∨
      jsTrim e.SMTP_FROM = [] ∨ parseRecipients p.to_ = []) :
    (sendEmail e p rand sc).outcome = .ret false ∧
    (sendEmail e p rand sc).connAttempted = false ∧
    (sendEmail e p rand sc).trace = [] ∧
    (sendEmail e p rand sc).endCalls = 0 := by
  by_cases hE : hasSmtpEnv e = true
  · have hrec : parseRecipients p.to_ = [] := by
      simp [hasSmtpEnv] at hE
      tauto
    simp [sendEmail, hE, hrec, emptyRes]
  · have hE2 : hasSmtpEnv e = false := by
      cases hB : hasSmtpEnv e
      · rfl
      · exact absurd hB hE
    simp [sendEmail, hE2, emptyRes]

/-- Witness for C8 at a configuration with an empty host. -/
theorem claim_C8_witness :
    (jsTrim ("" : String).data = [] ∨ jsTrim "587".data = [] ∨
      jsTrim "u".data = [] ∨ jsTrim "p".data = [] ∨
      jsTrim "f@x".data = [] ∨
      parseRecipients "a@b".data = []) ∧
    ((sendEmail ⟨"".data, "587".data, "u".data, "p".data, "f@x".data, "".data⟩
        ⟨"a@b".data, "s".data, "h".data⟩ [] ⟨true, true, [], [], false⟩).outcome =
      .ret false ∧
    (sendEmail ⟨"".data, "587".data, "u".data, "p".data, "f@x".data, "".data⟩
        ⟨"a@b".data, "s".data, "h".data⟩ [] ⟨true, true, [], [], false⟩).connAttempted =
      false ∧
    (sendEmail ⟨"".data, "587".data, "u".data, "p".data, "f@x".data, "".data⟩
        ⟨"a@b".data, "s".data, "h".data⟩ [] ⟨true, true, [], [], false⟩).trace = [] ∧
    (sendEmail ⟨"".data, "587".data, "u".data, "p".data, "f@x".data, "".data⟩
        ⟨"a@b".data, "s".data, "h".data⟩ [] ⟨true, true, [], [], false⟩).endCalls = 0) :=
  ⟨Or.inl (by decide),
    claim_C8 ⟨"".data, "587".data, "u".data, "p".data, "f@x".data, "".data⟩
      ⟨"a@b".data, "s".data, "h".data⟩ [] ⟨true, true, [], [], false⟩
      (Or.inl (by decide))⟩

/-- C1 (amended): whenever the connection attempt succeeds (including the two
configuration short-circuits, which never attempt one), `sendEmail` returns a
boolean and raises no exception: every session error is caught and converted
to a `false` return.  When establishing the connection itself fails, the
rejection escapes to the caller (see the counterexample). -/
theorem claim_C1 (e : Env) (p : SendEmailParams) (rand : Str) (sc : Script)
    (hC : sc.connectOk = true) :
    ∃ b : Bool, (sendEmail e p rand sc).outcome = .ret b := by
  by_cases hE : hasSmtpEnv e = true
  · by_cases hR : parseRecipients p.to_ = []
    · exact ⟨false, by simp [sendEmail, hE, hR, emptyRes]⟩
    · rcases hS : sessionBody (jsNumberNat (jsTrim e.SMTP_PORT))
          (toLowerStr (jsTrim e.SMTP_STARTTLS) == "true".data)
          (jsTrim e.SMTP_USER) (jsTrim e.SMTP_PASS) (jsTrim e.SMTP_FROM)
          (parseRecipients p.to_) rand p.subject p.html
          (initSt sc (jsNumberNat (jsTrim e.SMTP_PORT) == some 465)) with ⟨r, st⟩
      cases r with
      | ok a =>
        exact ⟨true, by rw [sendEmail_run_ok e p rand sc hE hR hC hS]; rfl⟩
      | error err =>
        exact ⟨false, by rw [sendEmail_run_err e p rand sc hE hR hC hS]; rfl⟩
  · have hE2 : hasSmtpEnv e = false := by
      cases hB : hasSmtpEnv e
      · rfl
      · exact absurd hB hE
    exact ⟨false, by simp [sendEmail, hE2, emptyRes]⟩

/-- Witness for C1 at a concrete configured call whose connect succeeds. -/
theorem claim_C1_witness :
    (⟨true, true, [], [], false⟩ : Script).connectOk = true ∧
    ∃ b : Bool,
      (sendEmail ⟨"h".data, "587".data, "u".data, "p".data, "f@x".data, "".data⟩
        ⟨"a@b".data, "s".data, "h".data⟩ [] ⟨true, true, [], [], false⟩).outcome =
        .ret b :=
  ⟨rfl, claim_C1 ⟨"h".data, "587".data, "u".data, "p".data, "f@x".data, "".data⟩
    ⟨"a@b".data, "s".data, "h".data⟩ [] ⟨true, true, [], [], false⟩ rfl⟩

/-- Counterexample to C1 as stated: with a fully present configuration and a
non-empty recipient list, a failure to establish the connection happens
before the `try` block, so the rejection propagates to the caller instead of
becoming a `false` return. -/
theorem claim_C1_counterexample :
    (sendEmail ⟨"h".data, "587".data, "u".data, "p".data, "f@x".data, "".data⟩
      ⟨"a@b".data, "s".data, "h".data⟩ [] ⟨false, true, [], [], false⟩).outcome =
      .threw := by decide

/-- C2: against a transport answering the full happy-path sequence (220
banner, EHLO reply advertising STARTTLS, 220 to STARTTLS, a post-TLS EHLO
reply, 334/334/235 for AUTH LOGIN, 250 to MAIL FROM, 250 to each of the N
RCPT TO commands, 354 to DATA, 250 after the message), a configured send
returns `true` and the transport observes exactly one DATA payload, ending
in the terminator CRLF `.` CRLF. -/
theorem claim_C2 (e : Env) (p : SendEmailParams) (rand : Str)
    (g eh s2 e2 a1 a2 a3 mr d fin : Str) (resps : List Str) (et : Bool)
    (hE : hasSmtpEnv e = true)
    (hPort : jsNumberNat (jsTrim e.SMTP_PORT) ≠ some 465)
    (hFlag : toLowerStr (jsTrim e.SMTP_STARTTLS) = "true".data)
    (hR : parseRecipients p.to_ ≠ [])
    (hg : extractCode g = 220) (hAdv : advStarttls eh = true)
    (hs : extractCode s2 = 220)
    (h1 : extractCode a1 = 334) (h2 : extractCode a2 = 334) (h3 : extractCode a3 = 235)
    (hm : extractCode mr = 250)
    (hlen : resps.length = (parseRecipients p.to_).length)
    (hcodes : ∀ x ∈ resps, extractCode x = 250)
    (hd : extractCode d = 354) (hf : extractCode fin = 250) :
    (sendEmail e p rand
        ⟨true, true,
          ReadO.line g :: ReadO.line eh :: ReadO.line s2 :: ReadO.line e2 ::
            ReadO.line a1 :: ReadO.line a2 :: ReadO.line a3 :: ReadO.line mr ::
            (resps.map ReadO.line ++ (ReadO.line d :: ReadO.line fin :: [])),
          [], et⟩).outcome = .ret true ∧
    (sendEmail e p rand
        ⟨true, true,
          ReadO.line g :: ReadO.line eh :: ReadO.line s2 :: ReadO.line e2 ::
            ReadO.line a1 :: ReadO.line a2 :: ReadO.line a3 :: ReadO.line mr ::
            (resps.map ReadO.line ++ (ReadO.line d :: ReadO.line fin :: [])),
          [], et⟩).payloads =
      [mimePayload rand (jsTrim e.SMTP_FROM) (parseRecipients p.to_)
        p.subject p.html] ∧
    ∃ t : Str,
      mimePayload rand (jsTrim e.SMTP_FROM) (parseRecipients p.to_)
        p.subject p.html = t ++ "\r\n.\r\n".data := by
  have hcond : starttlsCond (jsNumberNat (jsTrim e.SMTP_PORT))
      (toLowerStr (jsTrim e.SMTP_STARTTLS) == "true".data) eh = true := by
    simp [starttlsCond, hFlag, hAdv, hPort]
  have hS := sessionBody_okStarttls (jsNumberNat (jsTrim e.SMTP_PORT))
    (toLowerStr (jsTrim e.SMTP_STARTTLS) == "true".data)
    (jsTrim e.SMTP_USER) (jsTrim e.SMTP_PASS) (jsTrim e.SMTP_FROM)
    (parseRecipients p.to_) rand p.subject p.html
    g eh s2 e2 a1 a2 a3 mr d fin resps []
    hg hcond hs h1 h2 h3 hm hlen
    (fun x hx => by simp [hcodes x hx])
    hd hf [] [] (jsNumberNat (jsTrim e.SMTP_PORT) == some 465) 0 0 0 0 0 0
  have R := sendEmail_run_ok e p rand
    ⟨true, true,
      ReadO.line g :: ReadO.line eh :: ReadO.line s2 :: ReadO.line e2 ::
        ReadO.line a1 :: ReadO.line a2 :: ReadO.line a3 :: ReadO.line mr ::
        (resps.map ReadO.line ++ (ReadO.line d :: ReadO.line fin :: [])),
      [], et⟩ hE hR rfl hS
  rw [R]
  refine ⟨rfl, by simp [mkRes], ?_⟩
  exact ⟨makeMime rand (jsTrim e.SMTP_FROM)
    (List.intercalate ", ".data (parseRecipients p.to_)) p.subject p.html, rfl⟩

/-- Witness for C2: a concrete configured send with two recipients against
the concrete happy-path script. -/
theorem claim_C2_witness :
    (hasSmtpEnv ⟨"h".data, "587".data, "u".data, "p".data, "f@x".data,
      "true".data⟩ = true) ∧
    (parseRecipients "a@b, c@d".data ≠ []) ∧
    (extractCode "220 hi\r\n".data = 220 ∧
      advStarttls "250-STARTTLS\r\n".data = true) ∧
    ((sendEmail ⟨"h".data, "587".data, "u".data, "p".data, "f@x".data, "true".data⟩
        ⟨"a@b, c@d".data, "s".data, "<b>t</b>".data⟩ "1a2b".data
        ⟨true, true,
          ReadO.line "220 hi\r\n".data :: ReadO.line "250-STARTTLS\r\n".data ::
            ReadO.line "220 go\r\n".data :: ReadO.line "250 ok\r\n".data ::
            ReadO.line "334 a\r\n".data :: ReadO.line "334 b\r\n".data ::
            ReadO.line "235 ok\r\n".data :: ReadO.line "250 ok\r\n".data ::
            (["250 r1\r\n".data, "250 r2\r\n".data].map ReadO.line ++
              (ReadO.line "354 go\r\n".data :: ReadO.line "250 done\r\n".data :: [])),
          [], false⟩).outcome = .ret true ∧
      (sendEmail ⟨"h".data, "587".data, "u".data, "p".data, "f@x".data, "true".data⟩
        ⟨"a@b, c@d".data, "s".data, "<b>t</b>".data⟩ "1a2b".data
        ⟨true, true,
          ReadO.line "220 hi\r\n".data :: ReadO.line "250-STARTTLS\r\n".data ::
            ReadO.line "220 go\r\n".data :: ReadO.line "250 ok\r\n".data ::
            ReadO.line "334 a\r\n".data :: ReadO.line "334 b\r\n".data ::
            ReadO.line "235 ok\r\n".data :: ReadO.line "250 ok\r\n".data ::
            (["250 r1\r\n".data, "250 r2\r\n".data].map ReadO.line ++
              (ReadO.line "354 go\r\n".data :: ReadO.line "250 done\r\n".data :: [])),
          [], false⟩).payloads =
        [mimePayload "1a2b".data (jsTrim "f@x".data)
          (parseRecipients "a@b, c@d".data) "s".data "<b>t</b>".data] ∧
      ∃ t : Str,
        mimePayload "1a2b".data (jsTrim "f@x".data)
          (parseRecipients "a@b, c@d".data) "s".data "<b>t</b>".data =
          t ++ "\r\n.\r\n".data) :=
  by
  refine ⟨by decide, by decide, ⟨by decide, by decide⟩, ?_⟩
  exact claim_C2 ⟨"h".data, "587".data, "u".data, "p".data, "f@x".data, "true".data⟩
    ⟨"a@b, c@d".data, "s".data, "<b>t</b>".data⟩ "1a2b".data
    "220 hi\r\n".data "250-STARTTLS\r\n".data "220 go\r\n".data
    "250 ok\r\n".data "334 a\r\n".data "334 b\r\n".data "235 ok\r\n".data
    "250 ok\r\n".data "354 go\r\n".data "250 done\r\n".data
    ["250 r1\r\n".data, "250 r2\r\n".data] false
    (by decide) (by decide) (by decide) (by decide) (by decide) (by decide)
    (by decide) (by decide) (by decide) (by decide) (by decide)
    (by decide) (by decide) (by decide) (by decide)

/-- C7: RCPT TO is issued once per parsed recipient, in order; when one
recipient is answered with a code outside 250/251, the session aborts at that
recipient: the QUIT courtesy write is attempted, `sendEmail` returns `false`,
and no DATA command (and no payload) is ever issued.  Stated here for a
session with the STARTTLS flag disabled. -/
theorem claim_C7 (e : Env) (p : SendEmailParams) (rand : Str)
    (g eh a1 a2 a3 mr bad : Str) (good : List Str) (r : Str) (after : List Str)
    (resps : List Str) (restR : List ReadO) (et : Bool)
    (hE : hasSmtpEnv e = true)
    (hFlag : toLowerStr (jsTrim e.SMTP_STARTTLS) ≠ "true".data)
    (hsplit : parseRecipients p.to_ = good ++ r :: after)
    (hg : extractCode g = 220)
    (h1 : extractCode a1 = 334) (h2 : extractCode a2 = 334) (h3 : extractCode a3 = 235)
    (hm : extractCode mr = 250)
    (hlen : resps.length = good.length)
    (hcodes : ∀ x ∈ resps, extractCode x ∈ [250, 251])
    (hbad : extractCode bad ∉ [250, 251]) :
    (sendEmail e p rand
        ⟨true, true,
          ReadO.line g :: ReadO.line eh :: ReadO.line a1 :: ReadO.line a2 ::
            ReadO.line a3 :: ReadO.line mr ::
            (resps.map ReadO.line ++ ReadO.line bad :: restR),
          [], et⟩).outcome = .ret false ∧
    (sendEmail e p rand
        ⟨true, true,
          ReadO.line g :: ReadO.line eh :: ReadO.line a1 :: ReadO.line a2 ::
            ReadO.line a3 :: ReadO.line mr ::
            (resps.map ReadO.line ++ ReadO.line bad :: restR),
          [], et⟩).dataCmds = 0 ∧
    (sendEmail e p rand
        ⟨true, true,
          ReadO.line g :: ReadO.line eh :: ReadO.line a1 :: ReadO.line a2 ::
            ReadO.line a3 :: ReadO.line mr ::
            (resps.map ReadO.line ++ ReadO.line bad :: restR),
          [], et⟩).payloads = [] ∧
    (sendEmail e p rand
        ⟨true, true,
          ReadO.line g :: ReadO.line eh :: ReadO.line a1 :: ReadO.line a2 ::
            ReadO.line a3 :: ReadO.line mr ::
            (resps.map ReadO.line ++ ReadO.line bad :: restR),
          [], et⟩).quitCmds = 1 ∧
    (sendEmail e p rand
        ⟨true, true,
          ReadO.line g :: ReadO.line eh :: ReadO.line a1 :: ReadO.line a2 ::
            ReadO.line a3 :: ReadO.line mr ::
            (resps.map ReadO.line ++ ReadO.line bad :: restR),
          [], et⟩).trace =
      [ehloCmd, authLoginCmd, b64 (jsTrim e.SMTP_USER) ++ crlf,
        b64 (jsTrim e.SMTP_PASS) ++ crlf, mailFromCmd (jsTrim e.SMTP_FROM)] ++
        good.map rcptCmd ++ [rcptCmd r, quitCmd] := by
  have hR : parseRecipients p.to_ ≠ [] := by
    rw [hsplit]
    simp
  have hcond : starttlsCond (jsNumberNat (jsTrim e.SMTP_PORT))
      (toLowerStr (jsTrim e.SMTP_STARTTLS) == "true".data) eh = false := by
    simp [starttlsCond, hFlag]
  have hS := sessionBody_rcptFail (jsNumberNat (jsTrim e.SMTP_PORT))
    (toLowerStr (jsTrim e.SMTP_STARTTLS) == "true".data)
    (jsTrim e.SMTP_USER) (jsTrim e.SMTP_PASS) (jsTrim e.SMTP_FROM)
    good r after rand p.subject p.html g eh a1 a2 a3 mr bad resps restR
    hg hcond h1 h2 h3 hm hlen hcodes hbad
    true [] [] (jsNumberNat (jsTrim e.SMTP_PORT) == some 465) 0 0 0 0 0 0
  rw [← hsplit] at hS
  have R := sendEmail_run_err e p rand
    ⟨true, true,
      ReadO.line g :: ReadO.line eh :: ReadO.line a1 :: ReadO.line a2 ::
        ReadO.line a3 :: ReadO.line mr ::
        (resps.map ReadO.line ++ ReadO.line bad :: restR),
      [], et⟩ hE hR rfl hS
  rw [R]
  refine ⟨rfl, ?_, ?_, ?_, ?_⟩ <;>
    simp [mkRes, quitSwallow_run, List.append_assoc]

/-- Witness for C7: two parsed recipients, the second rejected with 550. -/
theorem claim_C7_witness :
    (hasSmtpEnv ⟨"h".data, "587".data, "u".data, "p".data, "f@x".data, []⟩ = true) ∧
    (parseRecipients "a@b, c@d".data = ["a@b".data] ++ "c@d".data :: []) ∧
    (extractCode "550 no\r\n".data ∉ [250, 251]) ∧
    ((sendEmail ⟨"h".data, "587".data, "u".data, "p".data, "f@x".data, []⟩
        ⟨"a@b, c@d".data, "s".data, "t".data⟩ []
        ⟨true, true,
          ReadO.line "220 hi\r\n".data :: ReadO.line "250 ok\r\n".data ::
            ReadO.line "334 a\r\n".data :: ReadO.line "334 b\r\n".data ::
            ReadO.line "235 ok\r\n".data :: ReadO.line "250 ok\r\n".data ::
            (["250 r1\r\n".data].map ReadO.line ++
              ReadO.line "550 no\r\n".data :: []),
          [], false⟩).outcome = .ret false ∧
      (sendEmail ⟨"h".data, "587".data, "u".data, "p".data, "f@x".data, []⟩
        ⟨"a@b, c@d".data, "s".data, "t".data⟩ []
        ⟨true, true,
          ReadO.line "220 hi\r\n".data :: ReadO.line "250 ok\r\n".data ::
            ReadO.line "334 a\r\n".data :: ReadO.line "334 b\r\n".data ::
            ReadO.line "235 ok\r\n".data :: ReadO.line "250 ok\r\n".data ::
            (["250 r1\r\n".data].map ReadO.line ++
              ReadO.line "550 no\r\n".data :: []),
          [], false⟩).dataCmds = 0 ∧
      (sendEmail ⟨"h".data, "587".data, "u".data, "p".data, "f@x".data, []⟩
        ⟨"a@b, c@d".data, "s".data, "t".data⟩ []
        ⟨true, true,
          ReadO.line "220 hi\r\n".data :: ReadO.line "250 ok\r\n".data ::
            ReadO.line "334 a\r\n".data :: ReadO.line "334 b\r\n".data ::
            ReadO.line "235 ok\r\n".data :: ReadO.line "250 ok\r\n".data ::
            (["250 r1\r\n".data].map ReadO.line ++
              ReadO.line "550 no\r\n".data :: []),
          [], false⟩).payloads = [] ∧
      (sendEmail ⟨"h".data, "587".data, "u".data, "p".data, "f@x".data, []⟩
        ⟨"a@b, c@d".data, "s".data, "t".data⟩ []
        ⟨true, true,
          ReadO.line "220 hi\r\n".data :: ReadO.line "250 ok\r\n".data ::
            ReadO.line "334 a\r\n".data :: ReadO.line "334 b\r\n".data ::
            ReadO.line "235 ok\r\n".data :: ReadO.line "250 ok\r\n".data ::
            (["250 r1\r\n".data].map ReadO.line ++
              ReadO.line "550 no\r\n".data :: []),
          [], false⟩).quitCmds = 1 ∧
      (sendEmail ⟨"h".data, "587".data, "u".data, "p".data, "f@x".data, []⟩
        ⟨"a@b, c@d".data, "s".data, "t".data⟩ []
        ⟨true, true,
          ReadO.line "220 hi\r\n".data :: ReadO.line "250 ok\r\n".data ::
            ReadO.line "334 a\r\n".data :: ReadO.line "334 b\r\n".data ::
            ReadO.line "235 ok\r\n".data :: ReadO.line "250 ok\r\n".data ::
            (["250 r1\r\n".data].map ReadO.line ++
              ReadO.line "550 no\r\n".data :: []),
          [], false⟩).trace =
        [ehloCmd, authLoginCmd, b64 (jsTrim "u".data) ++ crlf,
          b64 (jsTrim "p".data) ++ crlf, mailFromCmd (jsTrim "f@x".data)] ++
          ["a@b".data].map rcptCmd ++ [rcptCmd "c@d".data, quitCmd]) := by
  refine ⟨by decide, by decide, by decide, ?_⟩
  exact claim_C7 ⟨"h".data, "587".data, "u".data, "p".data, "f@x".data, []⟩
    ⟨"a@b, c@d".data, "s".data, "t".data⟩ []
    "220 hi\r\n".data "250 ok\r\n".data "334 a\r\n".data "334 b\r\n".data
    "235 ok\r\n".data "250 ok\r\n".data "550 no\r\n".data
    ["a@b".data] "c@d".data [] ["250 r1\r\n".data] [] false
    (by decide) (by decide) (by decide) (by decide) (by decide) (by decide)
    (by decide) (by decide) (by decide) (by decide) (by decide)

/-- C6: STARTTLS is attempted exactly when port is not 465, the STARTTLS
flag is enabled and the EHLO reply advertises STARTTLS (the branch condition
`starttlsCond`).  When the condition holds (and the server answers 220), the
STARTTLS command is written once, the connection is wrapped once in TLS which
becomes the active transport, and EHLO is re-issued immediately after (its
reply is read and discarded); when the condition fails, no STARTTLS command
is ever written and no TLS wrap is ever attempted in the whole session. -/
theorem claim_C6 (e : Env) (p : SendEmailParams) (rand : Str) (g eh : Str)
    (hE : hasSmtpEnv e = true) (hR : parseRecipients p.to_ ≠ [])
    (hg : extractCode g = 220) :
    (∀ (s2 e2 : Str) (rest : List ReadO) (et : Bool) (res : Res),
      starttlsCond (jsNumberNat (jsTrim e.SMTP_PORT))
        (toLowerStr (jsTrim e.SMTP_STARTTLS) == "true".data) eh = true →
      extractCode s2 = 220 →
      res = sendEmail e p rand ⟨true, true,
        ReadO.line g :: ReadO.line eh :: ReadO.line s2 :: ReadO.line e2 :: rest,
        [], et⟩ →
      res.starttlsCmds = 1 ∧ res.upgrades = 1 ∧ res.tlsActive = true ∧
      ∃ t : List Str, res.trace = [ehloCmd, starttlsCmd, ehloCmd] ++ t) ∧
    (∀ (rest : List ReadO) (et : Bool) (res : Res),
      starttlsCond (jsNumberNat (jsTrim e.SMTP_PORT))
        (toLowerStr (jsTrim e.SMTP_STARTTLS) == "true".data) eh = false →
      res = sendEmail e p rand ⟨true, true,
        ReadO.line g :: ReadO.line eh :: rest, [], et⟩ →
      res.starttlsCmds = 0 ∧ res.upgrades = 0) := by
  constructor
  · intro s2 e2 rest et res hcond hs hres
    have h465 : (jsNumberNat (jsTrim e.SMTP_PORT) == some 465) = false := by
      cases hA : (jsNumberNat (jsTrim e.SMTP_PORT) == some 465) with
      | false => rfl
      | true => simp [starttlsCond, hA] at hcond
    have hPre := sessionBody_postGreetTls (jsNumberNat (jsTrim e.SMTP_PORT))
      (toLowerStr (jsTrim e.SMTP_STARTTLS) == "true".data)
      (jsTrim e.SMTP_USER) (jsTrim e.SMTP_PASS) (jsTrim e.SMTP_FROM)
      (parseRecipients p.to_) rand p.subject p.html g eh s2 e2 hg hcond hs
      rest [] [] false 0 0 0 0 0 0
    rcases hA : authTail (jsTrim e.SMTP_USER) (jsTrim e.SMTP_PASS)
        (jsTrim e.SMTP_FROM) (parseRecipients p.to_)
        (mimePayload rand (jsTrim e.SMTP_FROM) (parseRecipients p.to_)
          p.subject p.html)
        ⟨rest, [], true, [] ++ [ehloCmd, starttlsCmd, ehloCmd], [], true,
          0 + 1, 0 + 1, 0, 0, 0, 0⟩ with ⟨rr, st3⟩
    have hPres := presSess_authTail (jsTrim e.SMTP_USER) (jsTrim e.SMTP_PASS)
      (jsTrim e.SMTP_FROM) (parseRecipients p.to_)
      (mimePayload rand (jsTrim e.SMTP_FROM) (parseRecipients p.to_)
        p.subject p.html)
      ⟨rest, [], true, [] ++ [ehloCmd, starttlsCmd, ehloCmd], [], true,
        0 + 1, 0 + 1, 0, 0, 0, 0⟩
    rw [hA] at hPres
    obtain ⟨hc1, hc2, hc3, t, ht⟩ := hPres
    cases rr with
    | ok a =>
      have hS : sessionBody (jsNumberNat (jsTrim e.SMTP_PORT))
          (toLowerStr (jsTrim e.SMTP_STARTTLS) == "true".data)
          (jsTrim e.SMTP_USER) (jsTrim e.SMTP_PASS) (jsTrim e.SMTP_FROM)
          (parseRecipients p.to_) rand p.subject p.html
          (initSt ⟨true, true,
            ReadO.line g :: ReadO.line eh :: ReadO.line s2 :: ReadO.line e2 :: rest,
            [], et⟩ (jsNumberNat (jsTrim e.SMTP_PORT) == some 465)) =
          (.ok a, st3) := by
        rw [h465]
        show sessionBody _ _ _ _ _ _ _ _ _
          ⟨ReadO.line g :: ReadO.line eh :: ReadO.line s2 :: ReadO.line e2 :: rest,
            [], true, [], [], false, 0, 0, 0, 0, 0, 0⟩ = (.ok a, st3)
        rw [hPre, hA]
      rw [sendEmail_run_ok e p rand _ hE hR rfl hS] at hres
      subst hres
      refine ⟨hc1, hc2, hc3, t, ?_⟩
      simpa [mkRes] using ht
    | error err =>
      have hS : sessionBody (jsNumberNat (jsTrim e.SMTP_PORT))
          (toLowerStr (jsTrim e.SMTP_STARTTLS) == "true".data)
          (jsTrim e.SMTP_USER) (jsTrim e.SMTP_PASS) (jsTrim e.SMTP_FROM)
          (parseRecipients p.to_) rand p.subject p.html
          (initSt ⟨true, true,
            ReadO.line g :: ReadO.line eh :: ReadO.line s2 :: ReadO.line e2 :: rest,
            [], et⟩ (jsNumberNat (jsTrim e.SMTP_PORT) == some 465)) =
          (.error err, st3) := by
        rw [h465]
        show sessionBody _ _ _ _ _ _ _ _ _
          ⟨ReadO.line g :: ReadO.line eh :: ReadO.line s2 :: ReadO.line e2 :: rest,
            [], true, [], [], false, 0, 0, 0, 0, 0, 0⟩ = (.error err, st3)
        rw [hPre, hA]
      rw [sendEmail_run_err e p rand _ hE hR rfl hS] at hres
      subst hres
      obtain ⟨hq1, hq2, hq3, t2, ht2⟩ := quitSwallow_pres st3
      refine ⟨?_, ?_, ?_, t ++ t2, ?_⟩
      · simpa [mkRes, hq1] using hc1
      · simpa [mkRes, hq2] using hc2
      · simpa [mkRes, hq3] using hc3
      · show (quitSwallow st3).trace = _
        rw [ht2, ht]
        simp
  · intro rest et res hcond hres
    have hPre := sessionBody_postGreetPlain (jsNumberNat (jsTrim e.SMTP_PORT))
      (toLowerStr (jsTrim e.SMTP_STARTTLS) == "true".data)
      (jsTrim e.SMTP_USER) (jsTrim e.SMTP_PASS) (jsTrim e.SMTP_FROM)
      (parseRecipients p.to_) rand p.subject p.html g eh hg hcond
      rest true [] [] (jsNumberNat (jsTrim e.SMTP_PORT) == some 465) 0 0 0 0 0 0
    rcases hA : authTail (jsTrim e.SMTP_USER) (jsTrim e.SMTP_PASS)
        (jsTrim e.SMTP_FROM) (parseRecipients p.to_)
        (mimePayload rand (jsTrim e.SMTP_FROM) (parseRecipients p.to_)
          p.subject p.html)
        ⟨rest, [], true, [] ++ [ehloCmd], [],
          (jsNumberNat (jsTrim e.SMTP_PORT) == some 465), 0, 0, 0, 0, 0, 0⟩
      with ⟨rr, st3⟩
    have hPres := presSess_authTail (jsTrim e.SMTP_USER) (jsTrim e.SMTP_PASS)
      (jsTrim e.SMTP_FROM) (parseRecipients p.to_)
      (mimePayload rand (jsTrim e.SMTP_FROM) (parseRecipients p.to_)
        p.subject p.html)
      ⟨rest, [], true, [] ++ [ehloCmd], [],
        (jsNumberNat (jsTrim e.SMTP_PORT) == some 465), 0, 0, 0, 0, 0, 0⟩
    rw [hA] at hPres
    obtain ⟨hc1, hc2, hc3, t, ht⟩ := hPres
    cases rr with
    | ok a =>
      have hS : sessionBody (jsNumberNat (jsTrim e.SMTP_PORT))
          (toLowerStr (jsTrim e.SMTP_STARTTLS) == "true".data)
          (jsTrim e.SMTP_USER) (jsTrim e.SMTP_PASS) (jsTrim e.SMTP_FROM)
          (parseRecipients p.to_) rand p.subject p.html
          (initSt ⟨true, true, ReadO.line g :: ReadO.line eh :: rest, [], et⟩
            (jsNumberNat (jsTrim e.SMTP_PORT) == some 465)) = (.ok a, st3) := by
        show sessionBody _ _ _ _ _ _ _ _ _
          ⟨ReadO.line g :: ReadO.line eh :: rest, [], true, [], [],
            (jsNumberNat (jsTrim e.SMTP_PORT) == some 465), 0, 0, 0, 0, 0, 0⟩ =
          (.ok a, st3)
        rw [hPre, hA]
      rw [sendEmail_run_ok e p rand _ hE hR rfl hS] at hres
      subst hres
      exact ⟨by simpa [mkRes] using hc1, by simpa [mkRes] using hc2⟩
    | error err =>
      have hS : sessionBody (jsNumberNat (jsTrim e.SMTP_PORT))
          (toLowerStr (jsTrim e.SMTP_STARTTLS) == "true".data)
          (jsTrim e.SMTP_USER) (jsTrim e.SMTP_PASS) (jsTrim e.SMTP_FROM)
          (parseRecipients p.to_) rand p.subject p.html
          (initSt ⟨true, true, ReadO.line g :: ReadO.line eh :: rest, [], et⟩
            (jsNumberNat (jsTrim e.SMTP_PORT) == some 465)) = (.error err, st3) := by
        show sessionBody _ _ _ _ _ _ _ _ _
          ⟨ReadO.line g :: ReadO.line eh :: rest, [], true, [], [],
            (jsNumberNat (jsTrim e.SMTP_PORT) == some 465), 0, 0, 0, 0, 0, 0⟩ =
          (.error err, st3)
        rw [hPre, hA]
      rw [sendEmail_run_err e p rand _ hE hR rfl hS] at hres
      subst hres
      obtain ⟨hq1, hq2, hq3, t2, ht2⟩ := quitSwallow_pres st3
      exact ⟨by simp [mkRes]; rw [hq1]; exact hc1,
        by simp [mkRes]; rw [hq2]; exact hc2⟩

/-- Witness for C6: part one at a configuration with the flag on and an
advertising server, part two at a configuration with the flag off. -/
theorem claim_C6_witness :
    (hasSmtpEnv ⟨"h".data, "587".data, "u".data, "p".data, "f@x".data,
      "true".data⟩ = true) ∧
    (starttlsCond (jsNumberNat (jsTrim "587".data))
      (toLowerStr (jsTrim "true".data) == "true".data)
      "250-STARTTLS\r\n".data = true) ∧
    ((sendEmail ⟨"h".data, "587".data, "u".data, "p".data, "f@x".data, "true".data⟩
        ⟨"a@b".data, "s".data, "t".data⟩ []
        ⟨true, true,
          ReadO.line "220 hi\r\n".data :: ReadO.line "250-STARTTLS\r\n".data ::
            ReadO.line "220 go\r\n".data :: ReadO.line "250 ok\r\n".data :: [],
          [], false⟩).starttlsCmds = 1 ∧
      (sendEmail ⟨"h".data, "587".data, "u".data, "p".data, "f@x".data, "true".data⟩
        ⟨"a@b".data, "s".data, "t".data⟩ []
        ⟨true, true,
          ReadO.line "220 hi\r\n".data :: ReadO.line "250-STARTTLS\r\n".data ::
            ReadO.line "220 go\r\n".data :: ReadO.line "250 ok\r\n".data :: [],
          [], false⟩).upgrades = 1 ∧
      (sendEmail ⟨"h".data, "587".data, "u".data, "p".data, "f@x".data, "true".data⟩
        ⟨"a@b".data, "s".data, "t".data⟩ []
        ⟨true, true,
          ReadO.line "220 hi\r\n".data :: ReadO.line "250-STARTTLS\r\n".data ::
            ReadO.line "220 go\r\n".data :: ReadO.line "250 ok\r\n".data :: [],
          [], false⟩).tlsActive = true ∧
      ∃ t : List Str,
        (sendEmail ⟨"h".data, "587".data, "u".data, "p".data, "f@x".data, "true".data⟩
          ⟨"a@b".data, "s".data, "t".data⟩ []
          ⟨true, true,
            ReadO.line "220 hi\r\n".data :: ReadO.line "250-STARTTLS\r\n".data ::
              ReadO.line "220 go\r\n".data :: ReadO.line "250 ok\r\n".data :: [],
            [], false⟩).trace = [ehloCmd, starttlsCmd, ehloCmd] ++ t) ∧
    (starttlsCond (jsNumberNat (jsTrim "587".data))
      (toLowerStr (jsTrim "".data) == "true".data) "250 ok\r\n".data = false) ∧
    ((sendEmail ⟨"h".data, "587".data, "u".data, "p".data, "f@x".data, "".data⟩
        ⟨"a@b".data, "s".data, "t".data⟩ []
        ⟨true, true,
          ReadO.line "220 hi\r\n".data :: ReadO.line "250 ok\r\n".data :: [],
          [], false⟩).starttlsCmds = 0 ∧
      (sendEmail ⟨"h".data, "587".data, "u".data, "p".data, "f@x".data, "".data⟩
        ⟨"a@b".data, "s".data, "t".data⟩ []
        ⟨true, true,
          ReadO.line "220 hi\r\n".data :: ReadO.line "250 ok\r\n".data :: [],
          [], false⟩).upgrades = 0) := by
  refine ⟨by decide, by decide, ?_, by decide, ?_⟩
  · exact (claim_C6 ⟨"h".data, "587".data, "u".data, "p".data, "f@x".data,
      "true".data⟩ ⟨"a@b".data, "s".data, "t".data⟩ []
      "220 hi\r\n".data "250-STARTTLS\r\n".data (by decide) (by decide)
      (by decide)).1 "220 go\r\n".data "250 ok\r\n".data [] false _
      (by decide) (by decide) rfl
  · exact (claim_C6 ⟨"h".data, "587".data, "u".data, "p".data, "f@x".data,
      "".data⟩ ⟨"a@b".data, "s".data, "t".data⟩ []
      "220 hi\r\n".data "250 ok\r\n".data (by decide) (by decide)
      (by decide)).2 [] false _ (by decide) rfl

/-- The tail of the session after authentication: envelope, data, quit. -/
def envTail (from_ : Str) (rs : List Str) (payload : Str) : M Unit := do
  envelopePhase from_ rs
  dataPhase payload
  writeTag bumpQuit quitCmd

theorem authTail_eq (user pass from_ : Str) (rs : List Str) (payload : Str) :
    authTail user pass from_ rs payload =
      authPhase user pass >>= fun a => envTail from_ rs payload := rfl

theorem presSess_envTail (from_ : Str) (rs : List Str) (payload : Str) :
    PresSess (envTail from_ rs payload) := by
  exact presSess_bind (presSess_envelopePhase from_ rs) (fun _ =>
    presSess_bind (presSess_dataPhase payload) (fun _ =>
      presSess_writeTag bumpQuit quitCmd (fun st => ⟨rfl, rfl, rfl, rfl⟩)))

/-- A session step that never runs the AUTH LOGIN block: the auth counter
passes through unchanged. -/
def PresAuth {α : Type} (x : M α) : Prop :=
  ∀ st : St, (x st).2.authCmds = st.authCmds

theorem presAuth_bind {α β : Type} {x : M α} {f : α → M β}
    (hx : PresAuth x) (hf : ∀ a, PresAuth (f a)) : PresAuth (x >>= f) := by
  intro st
  rcases hp : x st with ⟨r, st1⟩
  have h1 := hx st
  rw [hp] at h1
  cases r with
  | ok a =>
    rw [run_bind_ok hp]
    exact (hf a st1).trans h1
  | error err =>
    rw [run_bind_err hp]
    exact h1

theorem presAuth_pure {α : Type} (a : α) : PresAuth (pure a : M α) := fun _ => rfl

theorem presAuth_readLineM : PresAuth readLineM := by
  intro st
  rcases st with ⟨rds, wk, tls, tr, pl, tla, c1, c2, c3, c4, c5, c6⟩
  cases rds with
  | nil => rfl
  | cons o rest => cases o <;> rfl

theorem presAuth_writeRaw (s : Str) : PresAuth (writeRaw s) := by
  intro st
  rcases st with ⟨rds, wk, tls, tr, pl, tla, c1, c2, c3, c4, c5, c6⟩
  cases wk with
  | nil => rfl
  | cons b rest => rfl

theorem presAuth_expectM (codes : List Nat) : PresAuth (expectM codes) := by
  intro st
  rcases st with ⟨rds, wk, tls, tr, pl, tla, c1, c2, c3, c4, c5, c6⟩
  cases rds with
  | nil => rfl
  | cons o rest =>
    cases o with
    | line x =>
      simp only [expectM, readLineM]
      split <;> rfl
    | rtimeout => rfl
    | rerr => rfl

theorem presAuth_writeTag (g : St → St) (s : Str)
    (hg : ∀ st : St, (g st).authCmds = st.authCmds) : PresAuth (writeTag g s) := by
  intro st
  exact (presAuth_writeRaw s (g st)).trans (hg st)

theorem presAuth_writePayload (s : Str) : PresAuth (writePayload s) := by
  intro st
  exact presAuth_writeRaw s {st with payloads := st.payloads ++ [s]}

theorem presAuth_rcptAll (rs : List Str) : PresAuth (rcptAll rs) := by
  induction rs with
  | nil => exact presAuth_pure ()
  | cons r rest ih =>
    exact presAuth_bind (presAuth_writeRaw (rcptCmd r))
      (fun _ => presAuth_bind (presAuth_expectM [250, 251]) (fun _ => ih))

theorem presAuth_envTail (from_ : Str) (rs : List Str) (payload : Str) :
    PresAuth (envTail from_ rs payload) := by
  refine presAuth_bind (presAuth_bind (presAuth_writeTag bumpMailFrom
    (mailFromCmd from_) (fun _ => rfl)) (fun _ => presAuth_bind
      (presAuth_expectM [250]) (fun _ => presAuth_rcptAll rs))) (fun _ => ?_)
  refine presAuth_bind (presAuth_bind (presAuth_writeTag bumpData dataCmd
    (fun _ => rfl)) (fun _ => presAuth_bind (presAuth_expectM [354]) (fun _ =>
      presAuth_bind (presAuth_writePayload payload) (fun _ =>
        presAuth_bind (presAuth_expectM [250]) (fun _ => presAuth_pure ())))))
    (fun _ => presAuth_writeTag bumpQuit quitCmd (fun _ => rfl))

/-- The catch-path courtesy QUIT changes only the trace, the consumed write
script and the QUIT counter. -/
theorem quitSwallow_fields (st : St) :
    (quitSwallow st).authCmds = st.authCmds ∧
    (quitSwallow st).mailFroms = st.mailFroms ∧
    (quitSwallow st).dataCmds = st.dataCmds ∧
    (quitSwallow st).payloads = st.payloads := by
  rcases st with ⟨rds, wk, tls, tr, pl, tla, c1, c2, c3, c4, c5, c6⟩
  cases wk with
  | nil => exact ⟨rfl, rfl, rfl, rfl⟩
  | cons b rest => exact ⟨rfl, rfl, rfl, rfl⟩

theorem authSection_analysis (user pass from_ : Str) (rs : List Str) (payload : Str)
    (a1 a2 a3 : Str) (rest : List ReadO) (tlsv : Bool) (tr0 : List Str) (tla : Bool)
    (s0 u0 : Nat) :
    ((authPhase user pass >>= fun _ => envTail from_ rs payload)
        ⟨ReadO.line a1 :: ReadO.line a2 :: ReadO.line a3 :: rest, [], tlsv, tr0, [],
          tla, s0, u0, 0, 0, 0, 0⟩).2.authCmds = 1 ∧
    ((extractCode a1 = 334 ∧ extractCode a2 = 334) →
      ∃ t : List Str,
        ((authPhase user pass >>= fun _ => envTail from_ rs payload)
          ⟨ReadO.line a1 :: ReadO.line a2 :: ReadO.line a3 :: rest, [], tlsv, tr0, [],
            tla, s0, u0, 0, 0, 0, 0⟩).2.trace =
          tr0 ++ [authLoginCmd, b64 user ++ crlf, b64 pass ++ crlf] ++ t) ∧
    (¬(extractCode a1 = 334 ∧ extractCode a2 = 334 ∧ extractCode a3 = 235) →
      (∃ (err : Err) (st2 : St),
        (authPhase user pass >>= fun _ => envTail from_ rs payload)
          ⟨ReadO.line a1 :: ReadO.line a2 :: ReadO.line a3 :: rest, [], tlsv, tr0, [],
            tla, s0, u0, 0, 0, 0, 0⟩ = (.error err, st2)) ∧
      ((authPhase user pass >>= fun _ => envTail from_ rs payload)
        ⟨ReadO.line a1 :: ReadO.line a2 :: ReadO.line a3 :: rest, [], tlsv, tr0, [],
          tla, s0, u0, 0, 0, 0, 0⟩).2.mailFroms = 0) := by
  by_cases H1 : extractCode a1 = 334
  · by_cases H2 : extractCode a2 = 334
    · by_cases H3 : extractCode a3 = 235
      · have hrun : (authPhase user pass >>= fun _ => envTail from_ rs payload)
            ⟨ReadO.line a1 :: ReadO.line a2 :: ReadO.line a3 :: rest, [], tlsv, tr0,
              [], tla, s0, u0, 0, 0, 0, 0⟩ =
            envTail from_ rs payload
              ⟨rest, [], tlsv,
                tr0 ++ [authLoginCmd, b64 user ++ crlf, b64 pass ++ crlf], [], tla,
                s0, u0, 0 + 1, 0, 0, 0⟩ := by
          rw [run_bind_ok (authPhase_ok user pass a1 a2 a3 H1 H2 H3 _ _ _ _ _
            _ _ _ _ _ _)]
        refine ⟨?_, ?_, ?_⟩
        · rw [hrun]
          have := presAuth_envTail from_ rs payload
            ⟨rest, [], tlsv,
              tr0 ++ [authLoginCmd, b64 user ++ crlf, b64 pass ++ crlf], [], tla,
              s0, u0, 0 + 1, 0, 0, 0⟩
          rw [this]
        · intro _
          rw [hrun]
          have := presSess_envTail from_ rs payload
            ⟨rest, [], tlsv,
              tr0 ++ [authLoginCmd, b64 user ++ crlf, b64 pass ++ crlf], [], tla,
              s0, u0, 0 + 1, 0, 0, 0⟩
          obtain ⟨-, -, -, t, ht⟩ := this
          exact ⟨t, by rw [ht]⟩
        · intro habs
          exact absurd ⟨H1, H2, H3⟩ habs
      · have hrun : (authPhase user pass >>= fun _ => envTail from_ rs payload)
            ⟨ReadO.line a1 :: ReadO.line a2 :: ReadO.line a3 :: rest, [], tlsv, tr0,
              [], tla, s0, u0, 0, 0, 0, 0⟩ =
            (.error (.eunexpected (extractCode a3) a3),
              ⟨rest, [], tlsv,
                tr0 ++ [authLoginCmd, b64 user ++ crlf, b64 pass ++ crlf], [], tla,
                s0, u0, 0 + 1, 0, 0, 0⟩) := by
          rw [run_bind_err (authPhase_fail3 user pass a1 a2 a3 H1 H2
            (by simp [H3]) _ _ _ _ _ _ _ _ _ _ _)]
        refine ⟨by rw [hrun], fun _ => ⟨[], by rw [hrun]; simp⟩, fun _ => ?_⟩
        exact ⟨⟨_, _, hrun⟩, by rw [hrun]⟩
    · have hrun : (authPhase user pass >>= fun _ => envTail from_ rs payload)
          ⟨ReadO.line a1 :: ReadO.line a2 :: ReadO.line a3 :: rest, [], tlsv, tr0,
            [], tla, s0, u0, 0, 0, 0, 0⟩ =
          (.error (.eunexpected (extractCode a2) a2),
            ⟨ReadO.line a3 :: rest, [], tlsv,
              tr0 ++ [authLoginCmd, b64 user ++ crlf], [], tla,
              s0, u0, 0 + 1, 0, 0, 0⟩) := by
        rw [run_bind_err (authPhase_fail2 user pass a1 a2 H1
          (by simp [H2]) _ _ _ _ _ _ _ _ _ _ _)]
      refine ⟨by rw [hrun], fun hb => absurd hb.2 H2, fun _ => ?_⟩
      exact ⟨⟨_, _, hrun⟩, by rw [hrun]⟩
  · have hrun : (authPhase user pass >>= fun _ => envTail from_ rs payload)
        ⟨ReadO.line a1 :: ReadO.line a2 :: ReadO.line a3 :: rest, [], tlsv, tr0,
          [], tla, s0, u0, 0, 0, 0, 0⟩ =
        (.error (.eunexpected (extractCode a1) a1),
          ⟨ReadO.line a2 :: ReadO.line a3 :: rest, [], tlsv,
            tr0 ++ [authLoginCmd], [], tla, s0, u0, 0 + 1, 0, 0, 0⟩) := by
      rw [run_bind_err (authPhase_fail1 user pass a1
        (by simp [H1]) _ _ _ _ _ _ _ _ _ _ _)]
    refine ⟨by rw [hrun], fun hb => absurd hb.1 H1, fun _ => ?_⟩
    exact ⟨⟨_, _, hrun⟩, by rw [hrun]⟩

/-- C10: every session that passes the greeting (with or without the optional
STARTTLS upgrade) performs exactly one AUTH LOGIN exchange — AUTH LOGIN, the
base64 username, the base64 password — immediately after the (re-issued)
EHLO and before any MAIL FROM, whatever the EHLO reply advertised; there is
no unauthenticated mode, and when the server does not answer the exchange
with 334, 334, 235 the call returns `false` with no MAIL FROM ever issued. -/
theorem claim_C10 (e : Env) (p : SendEmailParams) (rand : Str)
    (g eh a1 a2 a3 : Str)
    (hE : hasSmtpEnv e = true) (hR : parseRecipients p.to_ ≠ [])
    (hg : extractCode g = 220) :
    (∀ (rest : List ReadO) (et : Bool) (res : Res),
      starttlsCond (jsNumberNat (jsTrim e.SMTP_PORT))
        (toLowerStr (jsTrim e.SMTP_STARTTLS) == "true".data) eh = false →
      res = sendEmail e p rand ⟨true, true,
        ReadO.line g :: ReadO.line eh :: ReadO.line a1 :: ReadO.line a2 ::
          ReadO.line a3 :: rest, [], et⟩ →
      res.authCmds = 1 ∧
      ((extractCode a1 = 334 ∧ extractCode a2 = 334) →
        ∃ t : List Str, res.trace = [ehloCmd, authLoginCmd,
          b64 (jsTrim e.SMTP_USER) ++ crlf, b64 (jsTrim e.SMTP_PASS) ++ crlf] ++ t) ∧
      (¬(extractCode a1 = 334 ∧ extractCode a2 = 334 ∧ extractCode a3 = 235) →
        res.outcome = .ret false ∧ res.mailFroms = 0)) ∧
    (∀ (s2 e2 : Str) (rest : List ReadO) (et : Bool) (res : Res),
      starttlsCond (jsNumberNat (jsTrim e.SMTP_PORT))
        (toLowerStr (jsTrim e.SMTP_STARTTLS) == "true".data) eh = true →
      extractCode s2 = 220 →
      res = sendEmail e p rand ⟨true, true,
        ReadO.line g :: ReadO.line eh :: ReadO.line s2 :: ReadO.line e2 ::
          ReadO.line a1 :: ReadO.line a2 :: ReadO.line a3 :: rest, [], et⟩ →
      res.authCmds = 1 ∧
      ((extractCode a1 = 334 ∧ extractCode a2 = 334) →
        ∃ t : List Str, res.trace = [ehloCmd, starttlsCmd, ehloCmd, authLoginCmd,
          b64 (jsTrim e.SMTP_USER) ++ crlf, b64 (jsTrim e.SMTP_PASS) ++ crlf] ++ t) ∧
      (¬(extractCode a1 = 334 ∧ extractCode a2 = 334 ∧ extractCode a3 = 235) →
        res.outcome = .ret false ∧ res.mailFroms = 0)) := by
  constructor
  · intro rest et res hcond hres
    have hPre := sessionBody_postGreetPlain (jsNumberNat (jsTrim e.SMTP_PORT))
      (toLowerStr (jsTrim e.SMTP_STARTTLS) == "true".data)
      (jsTrim e.SMTP_USER) (jsTrim e.SMTP_PASS) (jsTrim e.SMTP_FROM)
      (parseRecipients p.to_) rand p.subject p.html g eh hg hcond
      (ReadO.line a1 :: ReadO.line a2 :: ReadO.line a3 :: rest) true [] []
      (jsNumberNat (jsTrim e.SMTP_PORT) == some 465) 0 0 0 0 0 0
    obtain ⟨hAuth1, hAuthTrace, hAuthFail⟩ := authSection_analysis
      (jsTrim e.SMTP_USER) (jsTrim e.SMTP_PASS) (jsTrim e.SMTP_FROM)
      (parseRecipients p.to_)
      (mimePayload rand (jsTrim e.SMTP_FROM) (parseRecipients p.to_)
        p.subject p.html) a1 a2 a3 rest true ([] ++ [ehloCmd])
      (jsNumberNat (jsTrim e.SMTP_PORT) == some 465) 0 0
    rcases hA : (authPhase (jsTrim e.SMTP_USER) (jsTrim e.SMTP_PASS) >>= fun _ =>
        envTail (jsTrim e.SMTP_FROM) (parseRecipients p.to_)
          (mimePayload rand (jsTrim e.SMTP_FROM) (parseRecipients p.to_)
            p.subject p.html))
        ⟨ReadO.line a1 :: ReadO.line a2 :: ReadO.line a3 :: rest, [], true,
          [] ++ [ehloCmd], [], (jsNumberNat (jsTrim e.SMTP_PORT) == some 465),
          0, 0, 0, 0, 0, 0⟩ with ⟨rr, stOut⟩
    simp only [hA] at hAuth1 hAuthTrace hAuthFail
    cases rr with
    | ok a =>
      have hS : sessionBody (jsNumberNat (jsTrim e.SMTP_PORT))
          (toLowerStr (jsTrim e.SMTP_STARTTLS) == "true".data)
          (jsTrim e.SMTP_USER) (jsTrim e.SMTP_PASS) (jsTrim e.SMTP_FROM)
          (parseRecipients p.to_) rand p.subject p.html
          (initSt ⟨true, true,
            ReadO.line g :: ReadO.line eh :: ReadO.line a1 :: ReadO.line a2 ::
              ReadO.line a3 :: rest, [], et⟩
            (jsNumberNat (jsTrim e.SMTP_PORT) == some 465)) = (.ok a, stOut) := by
        show sessionBody _ _ _ _ _ _ _ _ _
          ⟨ReadO.line g :: ReadO.line eh :: ReadO.line a1 :: ReadO.line a2 ::
            ReadO.line a3 :: rest, [], true, [], [],
            (jsNumberNat (jsTrim e.SMTP_PORT) == some 465), 0, 0, 0, 0, 0, 0⟩ =
          (.ok a, stOut)
        rw [hPre, authTail_eq, hA]
      rw [sendEmail_run_ok e p rand _ hE hR rfl hS] at hres
      subst hres
      refine ⟨by simpa [mkRes] using hAuth1, ?_, ?_⟩
      · intro hb
        obtain ⟨t, ht⟩ := hAuthTrace hb
        refine ⟨t, ?_⟩
        show stOut.trace = _
        rw [ht]
        simp
      · intro hc
        obtain ⟨⟨err, st2, heq⟩, -⟩ := hAuthFail hc
        simp at heq
    | error err =>
      have hS : sessionBody (jsNumberNat (jsTrim e.SMTP_PORT))
          (toLowerStr (jsTrim e.SMTP_STARTTLS) == "true".data)
          (jsTrim e.SMTP_USER) (jsTrim e.SMTP_PASS) (jsTrim e.SMTP_FROM)
          (parseRecipients p.to_) rand p.subject p.html
          (initSt ⟨true, true,
            ReadO.line g :: ReadO.line eh :: ReadO.line a1 :: ReadO.line a2 ::
              ReadO.line a3 :: rest, [], et⟩
            (jsNumberNat (jsTrim e.SMTP_PORT) == some 465)) = (.error err, stOut) := by
        show sessionBody _ _ _ _ _ _ _ _ _
          ⟨ReadO.line g :: ReadO.line eh :: ReadO.line a1 :: ReadO.line a2 ::
            ReadO.line a3 :: rest, [], true, [], [],
            (jsNumberNat (jsTrim e.SMTP_PORT) == some 465), 0, 0, 0, 0, 0, 0⟩ =
          (.error err, stOut)
        rw [hPre, authTail_eq, hA]
      rw [sendEmail_run_err e p rand _ hE hR rfl hS] at hres
      subst hres
      obtain ⟨hf1, hf2, -, -⟩ := quitSwallow_fields stOut
      refine ⟨?_, ?_, ?_⟩
      · show (quitSwallow stOut).authCmds = 1
        rw [hf1]
        exact hAuth1
      · intro hb
        obtain ⟨t, ht⟩ := hAuthTrace hb
        obtain ⟨-, -, -, t2, ht2⟩ := quitSwallow_pres stOut
        refine ⟨t ++ t2, ?_⟩
        show (quitSwallow stOut).trace = _
        rw [ht2, ht]
        simp
      · intro hc
        refine ⟨rfl, ?_⟩
        show (quitSwallow stOut).mailFroms = 0
        rw [hf2]
        exact (hAuthFail hc).2
  · intro s2 e2 rest et res hcond hs hres
    have h465 : (jsNumberNat (jsTrim e.SMTP_PORT) == some 465) = false := by
      cases hB : (jsNumberNat (jsTrim e.SMTP_PORT) == some 465) with
      | false => rfl
      | true => simp [starttlsCond, hB] at hcond
    have hPre := sessionBody_postGreetTls (jsNumberNat (jsTrim e.SMTP_PORT))
      (toLowerStr (jsTrim e.SMTP_STARTTLS) == "true".data)
      (jsTrim e.SMTP_USER) (jsTrim e.SMTP_PASS) (jsTrim e.SMTP_FROM)
      (parseRecipients p.to_) rand p.subject p.html g eh s2 e2 hg hcond hs
      (ReadO.line a1 :: ReadO.line a2 :: ReadO.line a3 :: rest) [] [] false
      0 0 0 0 0 0
    obtain ⟨hAuth1, hAuthTrace, hAuthFail⟩ := authSection_analysis
      (jsTrim e.SMTP_USER) (jsTrim e.SMTP_PASS) (jsTrim e.SMTP_FROM)
      (parseRecipients p.to_)
      (mimePayload rand (jsTrim e.SMTP_FROM) (parseRecipients p.to_)
        p.subject p.html) a1 a2 a3 rest true
      ([] ++ [ehloCmd, starttlsCmd, ehloCmd]) true (0 + 1) (0 + 1)
    rcases hA : (authPhase (jsTrim e.SMTP_USER) (jsTrim e.SMTP_PASS) >>= fun _ =>
        envTail (jsTrim e.SMTP_FROM) (parseRecipients p.to_)
          (mimePayload rand (jsTrim e.SMTP_FROM) (parseRecipients p.to_)
            p.subject p.html))
        ⟨ReadO.line a1 :: ReadO.line a2 :: ReadO.line a3 :: rest, [], true,
          [] ++ [ehloCmd, starttlsCmd, ehloCmd], [], true,
          0 + 1, 0 + 1, 0, 0, 0, 0⟩ with ⟨rr, stOut⟩
    simp only [hA] at hAuth1 hAuthTrace hAuthFail
    cases rr with
    | ok a =>
      have hS : sessionBody (jsNumberNat (jsTrim e.SMTP_PORT))
          (toLowerStr (jsTrim e.SMTP_STARTTLS) == "true".data)
          (jsTrim e.SMTP_USER) (jsTrim e.SMTP_PASS) (jsTrim e.SMTP_FROM)
          (parseRecipients p.to_) rand p.subject p.html
          (initSt ⟨true, true,
            ReadO.line g :: ReadO.line eh :: ReadO.line s2 :: ReadO.line e2 ::
              ReadO.line a1 :: ReadO.line a2 :: ReadO.line a3 :: rest, [], et⟩
            (jsNumberNat (jsTrim e.SMTP_PORT) == some 465)) = (.ok a, stOut) := by
        rw [h465]
        show sessionBody _ _ _ _ _ _ _ _ _
          ⟨ReadO.line g :: ReadO.line eh :: ReadO.line s2 :: ReadO.line e2 ::
            ReadO.line a1 :: ReadO.line a2 :: ReadO.line a3 :: rest, [], true,
            [], [], false, 0, 0, 0, 0, 0, 0⟩ = (.ok a, stOut)
        rw [hPre, authTail_eq, hA]
      rw [sendEmail_run_ok e p rand _ hE hR rfl hS] at hres
      subst hres
      refine ⟨by simpa [mkRes] using hAuth1, ?_, ?_⟩
      · intro hb
        obtain ⟨t, ht⟩ := hAuthTrace hb
        refine ⟨t, ?_⟩
        show stOut.trace = _
        rw [ht]
        simp
      · intro hc
        obtain ⟨⟨err, st2, heq⟩, -⟩ := hAuthFail hc
        simp at heq
    | error err =>
      have hS : sessionBody (jsNumberNat (jsTrim e.SMTP_PORT))
          (toLowerStr (jsTrim e.SMTP_STARTTLS) == "true".data)
          (jsTrim e.SMTP_USER) (jsTrim e.SMTP_PASS) (jsTrim e.SMTP_FROM)
          (parseRecipients p.to_) rand p.subject p.html
          (initSt ⟨true, true,
            ReadO.line g :: ReadO.line eh :: ReadO.line s2 :: ReadO.line e2 ::
              ReadO.line a1 :: ReadO.line a2 :: ReadO.line a3 :: rest, [], et⟩
            (jsNumberNat (jsTrim e.SMTP_PORT) == some 465)) = (.error err, stOut) := by
        rw [h465]
        show sessionBody _ _ _ _ _ _ _ _ _
          ⟨ReadO.line g :: ReadO.line eh :: ReadO.line s2 :: ReadO.line e2 ::
            ReadO.line a1 :: ReadO.line a2 :: ReadO.line a3 :: rest, [], true,
            [], [], false, 0, 0, 0, 0, 0, 0⟩ = (.error err, stOut)
        rw [hPre, authTail_eq, hA]
      rw [sendEmail_run_err e p rand _ hE hR rfl hS] at hres
      subst hres
      obtain ⟨hf1, hf2, -, -⟩ := quitSwallow_fields stOut
      refine ⟨?_, ?_, ?_⟩
      · show (quitSwallow stOut).authCmds = 1
        rw [hf1]
        exact hAuth1
      · intro hb
        obtain ⟨t, ht⟩ := hAuthTrace hb
        obtain ⟨-, -, -, t2, ht2⟩ := quitSwallow_pres stOut
        refine ⟨t ++ t2, ?_⟩
        show (quitSwallow stOut).trace = _
        rw [ht2, ht]
        simp
      · intro hc
        refine ⟨rfl, ?_⟩
        show (quitSwallow stOut).mailFroms = 0
        rw [hf2]
        exact (hAuthFail hc).2

/-- Witness for C10: a server whose EHLO reply advertises no AUTH capability
and which rejects AUTH LOGIN with 500; the client still sends exactly one
AUTH LOGIN, returns `false`, and never issues MAIL FROM. -/
theorem claim_C10_witness :
    (hasSmtpEnv ⟨"h".data, "587".data, "u".data, "p".data, "f@x".data, "".data⟩ =
      true) ∧
    (starttlsCond (jsNumberNat (jsTrim "587".data))
      (toLowerStr (jsTrim "".data) == "true".data) "250 ok\r\n".data = false) ∧
    (¬(extractCode "500 no\r\n".data = 334 ∧ extractCode "x\r\n".data = 334 ∧
      extractCode "y\r\n".data = 235)) ∧
    ((sendEmail ⟨"h".data, "587".data, "u".data, "p".data, "f@x".data, "".data⟩
        ⟨"a@b".data, "s".data, "t".data⟩ []
        ⟨true, true,
          ReadO.line "220 hi\r\n".data :: ReadO.line "250 ok\r\n".data ::
            ReadO.line "500 no\r\n".data :: ReadO.line "x\r\n".data ::
            ReadO.line "y\r\n".data :: [], [], false⟩).authCmds = 1 ∧
      (sendEmail ⟨"h".data, "587".data, "u".data, "p".data, "f@x".data, "".data⟩
        ⟨"a@b".data, "s".data, "t".data⟩ []
        ⟨true, true,
          ReadO.line "220 hi\r\n".data :: ReadO.line "250 ok\r\n".data ::
            ReadO.line "500 no\r\n".data :: ReadO.line "x\r\n".data ::
            ReadO.line "y\r\n".data :: [], [], false⟩).outcome = .ret false ∧
      (sendEmail ⟨"h".data, "587".data, "u".data, "p".data, "f@x".data, "".data⟩
        ⟨"a@b".data, "s".data, "t".data⟩ []
        ⟨true, true,
          ReadO.line "220 hi\r\n".data :: ReadO.line "250 ok\r\n".data ::
            ReadO.line "500 no\r\n".data :: ReadO.line "x\r\n".data ::
            ReadO.line "y\r\n".data :: [], [], false⟩).mailFroms = 0) := by
  refine ⟨by decide, by decide, by decide, ?_⟩
  have H := (claim_C10 ⟨"h".data, "587".data, "u".data, "p".data, "f@x".data,
    "".data⟩ ⟨"a@b".data, "s".data, "t".data⟩ []
    "220 hi\r\n".data "250 ok\r\n".data "500 no\r\n".data "x\r\n".data
    "y\r\n".data (by decide) (by decide) (by decide)).1 [] false _
    (by decide) rfl
  exact ⟨H.1, (H.2.2 (by decide)).1, (H.2.2 (by decide)).2⟩

theorem quitSwallow_quitCmds (st : St) :
    (quitSwallow st).quitCmds = st.quitCmds + 1 := by
  rcases st with ⟨rds, wk, tls, tr, pl, tla, c1, c2, c3, c4, c5, c6⟩
  cases wk with
  | nil => rfl
  | cons b rest => rfl

/-- C3 (amended): for every call that attempts and establishes its
connection, `sock.end()` is invoked exactly once on every exit path (success,
failed protocol step, or exception inside the session), a throw from the
close is swallowed without changing the result, and on the error path the
courtesy QUIT is attempted once with its own failure swallowed while the call
still returns `false`.  When connection establishment itself fails, no
release is attempted (see the counterexample). -/
theorem claim_C3 (e : Env) (p : SendEmailParams) (rand : Str) (sc : Script)
    (hE : hasSmtpEnv e = true) (hR : parseRecipients p.to_ ≠ [])
    (hC : sc.connectOk = true) :
    (sendEmail e p rand sc).endCalls = 1 ∧
    (∀ b : Bool, sendEmail e p rand {sc with endThrows := b} = sendEmail e p rand sc) ∧
    (∀ (err : Err) (st : St),
      sessionBody (jsNumberNat (jsTrim e.SMTP_PORT))
        (toLowerStr (jsTrim e.SMTP_STARTTLS) == "true".data)
        (jsTrim e.SMTP_USER) (jsTrim e.SMTP_PASS) (jsTrim e.SMTP_FROM)
        (parseRecipients p.to_) rand p.subject p.html
        (initSt sc (jsNumberNat (jsTrim e.SMTP_PORT) == some 465)) =
        (.error err, st) →
      (sendEmail e p rand sc).outcome = .ret false ∧
      (sendEmail e p rand sc).quitCmds = st.quitCmds + 1) := by
  refine ⟨?_, fun b => rfl, ?_⟩
  · rcases hS : sessionBody (jsNumberNat (jsTrim e.SMTP_PORT))
        (toLowerStr (jsTrim e.SMTP_STARTTLS) == "true".data)
        (jsTrim e.SMTP_USER) (jsTrim e.SMTP_PASS) (jsTrim e.SMTP_FROM)
        (parseRecipients p.to_) rand p.subject p.html
        (initSt sc (jsNumberNat (jsTrim e.SMTP_PORT) == some 465)) with ⟨r, st⟩
    cases r with
    | ok a => rw [sendEmail_run_ok e p rand sc hE hR hC hS]; rfl
    | error err => rw [sendEmail_run_err e p rand sc hE hR hC hS]; rfl
  · intro err st hS
    rw [sendEmail_run_err e p rand sc hE hR hC hS]
    exact ⟨rfl, quitSwallow_quitCmds st⟩

/-- Witness for C3 at a connected call whose greeting times out (the error
path): one close, result unchanged under a throwing close, QUIT attempted. -/
theorem claim_C3_witness :
    (hasSmtpEnv ⟨"h".data, "587".data, "u".data, "p".data, "f@x".data, "".data⟩ =
      true) ∧
    ((sendEmail ⟨"h".data, "587".data, "u".data, "p".data, "f@x".data, "".data⟩
        ⟨"a@b".data, "s".data, "t".data⟩ [] ⟨true, true, [], [], false⟩).endCalls =
      1 ∧
    sendEmail ⟨"h".data, "587".data, "u".data, "p".data, "f@x".data, "".data⟩
        ⟨"a@b".data, "s".data, "t".data⟩ []
        ⟨true, true, [], [], true⟩ =
      sendEmail ⟨"h".data, "587".data, "u".data, "p".data, "f@x".data, "".data⟩
        ⟨"a@b".data, "s".data, "t".data⟩ [] ⟨true, true, [], [], false⟩ ∧
    (sendEmail ⟨"h".data, "587".data, "u".data, "p".data, "f@x".data, "".data⟩
        ⟨"a@b".data, "s".data, "t".data⟩ [] ⟨true, true, [], [], false⟩).outcome =
      .ret false ∧
    (sendEmail ⟨"h".data, "587".data, "u".data, "p".data, "f@x".data, "".data⟩
        ⟨"a@b".data, "s".data, "t".data⟩ [] ⟨true, true, [], [], false⟩).quitCmds =
      0 + 1) := by
  have H := claim_C3 ⟨"h".data, "587".data, "u".data, "p".data, "f@x".data,
    "".data⟩ ⟨"a@b".data, "s".data, "t".data⟩ [] ⟨true, true, [], [], false⟩
    (by decide) (by decide) rfl
  have HC := H.2.2 .etimeout
    ⟨[], [], true, [], [], (jsNumberNat (jsTrim "587".data) == some 465),
      0, 0, 0, 0, 0, 0⟩ rfl
  exact ⟨by decide, H.1, H.2.1 true, HC.1, HC.2⟩

/-- Counterexample to C3 as stated: when establishing the connection fails,
the failure happens before the `try`/`finally`, so the connection object is
never released (`sock.end()` is not called) even though a connection was
attempted — and the rejection escapes. -/
theorem claim_C3_counterexample :
    (sendEmail ⟨"h".data, "587".data, "u".data, "p".data, "f@x".data, "".data⟩
      ⟨"a@b".data, "s".data, "t".data⟩ [] ⟨false, true, [], [], false⟩).connAttempted =
      true ∧
    (sendEmail ⟨"h".data, "587".data, "u".data, "p".data, "f@x".data, "".data⟩
      ⟨"a@b".data, "s".data, "t".data⟩ [] ⟨false, true, [], [], false⟩).endCalls =
      0 ∧
    (sendEmail ⟨"h".data, "587".data, "u".data, "p".data, "f@x".data, "".data⟩
      ⟨"a@b".data, "s".data, "t".data⟩ [] ⟨false, true, [], [], false⟩).outcome =
      .threw := by decide

/-- Invariant of one `readLine` call: the two listeners and the timer are
registered and cleared together; while unsettled the buffer holds no newline
yet; a resolution carries the whole buffer, which holds a newline; any
settlement happens after cleanup. -/
def RInv (s : RState) : Prop :=
  (s.listening = s.timerActive) ∧
  (s.outcome = none → s.listening = true ∧ '\n' ∉ s.buf) ∧
  (∀ x : Str, s.outcome = some (ROut.line x) →
    s.listening = false ∧ x = s.buf ∧ '\n' ∈ x) ∧
  ((s.outcome = some ROut.rtimeout ∨ s.outcome = some ROut.rfail) →
    s.listening = false)

theorem rinv_init : RInv rinit := by
  refine ⟨rfl, fun _ => ⟨rfl, by simp [rinit]⟩, fun x hx => by simp [rinit] at hx,
    fun hx => ?_⟩
  rcases hx with hx | hx <;> simp [rinit] at hx

theorem rstep_settled (s : RState) (e : REv)
    (hl : s.listening = false) (ht : s.timerActive = false) : rstep s e = s := by
  cases e <;> simp [rstep, hl, ht]

theorem rinv_step (s : RState) (e : REv) (h : RInv s) : RInv (rstep s e) := by
  obtain ⟨h1, h2, h3, h4⟩ := h
  rcases s with ⟨buf, l, t, o⟩
  dsimp only at h1 h2 h3 h4
  cases hl : l with
  | false =>
    have ht : t = false := by rw [← h1, hl]
    subst hl ht
    rw [rstep_settled _ e rfl rfl]
    exact ⟨h1, h2, h3, h4⟩
  | true =>
    have ht : t = true := by rw [← h1, hl]
    have ho : o = none := by
      cases ho : o with
      | none => rfl
      | some oc =>
        cases oc with
        | line x =>
          have := (h3 x (by rw [ho])).1
          rw [hl] at this
          exact absurd this (by simp)
        | rtimeout =>
          have := h4 (Or.inl (by rw [ho]))
          rw [hl] at this
          exact absurd this (by simp)
        | rfail =>
          have := h4 (Or.inr (by rw [ho]))
          rw [hl] at this
          exact absurd this (by simp)
    subst hl ht ho
    cases e with
    | data c =>
      simp only [rstep, if_true]
      by_cases hnl : '\n' ∈ buf ++ c
      · rw [if_pos hnl]
        refine ⟨rfl, by simp, fun x hx => ?_, by simp⟩
        simp at hx
        subst hx
        exact ⟨rfl, rfl, hnl⟩
      · rw [if_neg hnl]
        exact ⟨rfl, fun _ => ⟨rfl, hnl⟩, fun x hx => by simp at hx,
          fun hx => by rcases hx with hx | hx <;> simp at hx⟩
    | errEv =>
      simp only [rstep, if_true]
      exact ⟨rfl, by simp, fun x hx => by simp at hx, fun _ => rfl⟩
    | timerEv =>
      simp only [rstep, if_true]
      exact ⟨rfl, by simp, fun x hx => by simp at hx, fun _ => rfl⟩

theorem rinv_run (evs : List REv) : RInv (rrun evs) := by
  have main : ∀ (l : List REv) (s : RState), RInv s → RInv (l.foldl rstep s) := by
    intro l
    induction l with
    | nil => intro s hs; exact hs
    | cons e rest ih => intro s hs; exact ih (rstep s e) (rinv_step s e hs)
  exact main evs rinit rinv_init

theorem rrun_settled_not_listening (evs : List REv)
    (h : (rrun evs).outcome ≠ none) :
    (rrun evs).listening = false ∧ (rrun evs).timerActive = false := by
  obtain ⟨h1, h2, h3, h4⟩ := rinv_run evs
  have hl : (rrun evs).listening = false := by
    cases ho : (rrun evs).outcome with
    | none => exact absurd ho h
    | some oc =>
      cases oc with
      | line x => exact (h3 x ho).1
      | rtimeout => exact h4 (Or.inl ho)
      | rfail => exact h4 (Or.inr ho)
  exact ⟨hl, by rw [← h1, hl]⟩

/-- C4 (amended): over any sequence of deliveries, connection errors and
timer firings, one `readLine` call settles at most once — once an outcome
exists, both listeners and the timer are deregistered and every further
event leaves the state unchanged; a resolution carries the entire
accumulated buffer (which contains a newline, but may extend past it — see
the counterexample); while no outcome exists the buffer holds no newline
yet, and a timer firing settles `Timeout` while a connection error settles
the transport failure. -/
theorem claim_C4 (evs : List REv) :
    ((rrun evs).outcome ≠ none →
      (rrun evs).listening = false ∧ (rrun evs).timerActive = false ∧
      ∀ e : REv, rstep (rrun evs) e = rrun evs) ∧
    (∀ x : Str, (rrun evs).outcome = some (ROut.line x) →
      x = (rrun evs).buf ∧ '\n' ∈ x) ∧
    ((rrun evs).outcome = none →
      '\n' ∉ (rrun evs).buf ∧
      (rstep (rrun evs) REv.timerEv).outcome = some ROut.rtimeout ∧
      (rstep (rrun evs) REv.errEv).outcome = some ROut.rfail) := by
  obtain ⟨h1, h2, h3, h4⟩ := rinv_run evs
  refine ⟨?_, ?_, ?_⟩
  · intro h
    obtain ⟨hl, ht⟩ := rrun_settled_not_listening evs h
    exact ⟨hl, ht, fun e => rstep_settled (rrun evs) e hl ht⟩
  · intro x hx
    exact (h3 x hx).2
  · intro h
    obtain ⟨hl, hnl⟩ := h2 h
    have ht : (rrun evs).timerActive = true := by rw [← h1, hl]
    refine ⟨hnl, ?_, ?_⟩
    · simp [rstep, ht]
    · simp [rstep, hl]

/-- Witness for C4: a single delivery containing a newline settles the read,
deregisters everything, and makes all later events no-ops. -/
theorem claim_C4_witness :
    ((rrun [REv.data "250 OK\n".data]).outcome ≠ none →
      (rrun [REv.data "250 OK\n".data]).listening = false ∧
      (rrun [REv.data "250 OK\n".data]).timerActive = false ∧
      ∀ e : REv, rstep (rrun [REv.data "250 OK\n".data]) e =
        rrun [REv.data "250 OK\n".data]) ∧
    (∀ x : Str, (rrun [REv.data "250 OK\n".data]).outcome = some (ROut.line x) →
      x = (rrun [REv.data "250 OK\n".data]).buf ∧ '\n' ∈ x) ∧
    ((rrun [REv.data "250 OK\n".data]).outcome = none →
      '\n' ∉ (rrun [REv.data "250 OK\n".data]).buf ∧
      (rstep (rrun [REv.data "250 OK\n".data]) REv.timerEv).outcome =
        some ROut.rtimeout ∧
      (rstep (rrun [REv.data "250 OK\n".data]) REv.errEv).outcome =
        some ROut.rfail) :=
  claim_C4 [REv.data "250 OK\n".data]

/-- Counterexample to C4 as stated: a delivery whose bytes extend past the
newline resolves with the whole buffer, not with the bytes up to and
including the newline. -/
theorem claim_C4_counterexample :
    (rrun [REv.data "250 OK\nEXTRA".data]).outcome =
      some (ROut.line "250 OK\nEXTRA".data) ∧
    "250 OK\nEXTRA".data ≠ "250 OK\n".data := by decide

/-- Decomposition of a response text into its lines: every line-terminator
character ends a line (so CRLF yields an empty line between the CR and the
LF, which carries no code and is skipped by all the predicates below). -/
def linesOf : Str → List Str
  | [] => [[]]
  | c :: r =>
    if isLineTerm c then [] :: linesOf r
    else
      match linesOf r with
      | [] => [[c]]
      | h :: t => (c :: h) :: t

/-- The leading code of the first line that starts with three digits, if
any. -/
def firstCode (ls : List Str) : Option Nat :=
  match ls.find? (fun l => (code3 l).isSome) with
  | some l => code3 l
  | none => none

/-- Specification wording of the parser, amended: the leading 3-digit code
of the first line that begins with three digits, `0` when no line does. -/
def extractCodeAmended (s : Str) : Nat :=
  match (linesOf s).find? (fun l => (code3 l).isSome) with
  | some l => (code3 l).getD 0
  | none => 0

/-- The parser contract exactly as claim C5 words it: the leading 3-digit
code of the first line that begins with digits (one digit suffices to select
the line), `0` when no such code is found. -/
def extractCodeClaim (s : Str) : Nat :=
  match (linesOf s).find? (fun l => (l.head?.map digitB).getD false) with
  | some l => (code3 l).getD 0
  | none => 0

theorem isLineTerm_not_digit (c : Char) (h : isLineTerm c = true) :
    digitB c = false := by
  simp only [isLineTerm, Bool.or_eq_true, decide_eq_true_eq] at h
  obtain ((h | h) | h) | h := h <;> subst h <;> decide

theorem linesOf_ne_nil (s : Str) : linesOf s ≠ [] := by
  cases s with
  | nil => simp [linesOf]
  | cons c r =>
    simp only [linesOf]
    split
    · simp
    · split <;> simp

theorem code3_linesHead : ∀ s : Str, code3 s = code3 ((linesOf s).headD []) := by
  intro s
  rcases s with _ | ⟨a, r⟩
  · rfl
  by_cases ha : isLineTerm a
  · have hda := isLineTerm_not_digit a ha
    rcases r with _ | ⟨b, _ | ⟨c2, r3⟩⟩ <;>
      simp [code3, linesOf, ha, hda]
  · rcases hlr : linesOf r with _ | ⟨h, t⟩
    · exact absurd hlr (linesOf_ne_nil r)
    have hshape : linesOf (a :: r) = (a :: h) :: t := by
      simp [linesOf, ha, hlr]
    rw [hshape]
    simp only [List.headD_cons]
    rcases r with _ | ⟨b, r2⟩
    · have hh : h = [] := by
        simp [linesOf] at hlr
        exact hlr.1
      subst hh
      rfl
    by_cases hb : isLineTerm b
    · have hdb := isLineTerm_not_digit b hb
      have hh : h = [] := by
        simp [linesOf, hb] at hlr
        exact hlr.1
      subst hh
      rcases r2 with _ | ⟨c2, r3⟩ <;> simp [code3, hdb]
    · rcases hlr2 : linesOf r2 with _ | ⟨h2, t2⟩
      · exact absurd hlr2 (linesOf_ne_nil r2)
      have hh : h = b :: h2 := by
        simp [linesOf, hb, hlr2] at hlr
        exact hlr.1.symm
      subst hh
      rcases r2 with _ | ⟨c2, r3⟩
      · have hh2 : h2 = [] := by
          simp [linesOf] at hlr2
          exact hlr2.1
        subst hh2
        rfl
      by_cases hc : isLineTerm c2
      · have hdc := isLineTerm_not_digit c2 hc
        have hh2 : h2 = [] := by
          simp [linesOf, hc] at hlr2
          exact hlr2.1
        subst hh2
        simp [code3, hdc]
      · rcases hlr3 : linesOf r3 with _ | ⟨h3, t3⟩
        · exact absurd hlr3 (linesOf_ne_nil r3)
        have hh2 : h2 = c2 :: h3 := by
          simp [linesOf, hc, hlr3] at hlr2
          exact hlr2.1.symm
        subst hh2
        simp [code3]

theorem firstCode_cons (l : Str) (ls : List Str) :
    firstCode (l :: ls) =
      match code3 l with
      | some n => some n
      | none => firstCode ls := by
  cases hc : code3 l <;> simp [firstCode, List.find?_cons, hc]

theorem extractAux_lines : ∀ s : Str,
    extractAux true s = firstCode (linesOf s) ∧
    extractAux false s = firstCode ((linesOf s).drop 1) := by
  intro s
  induction s with
  | nil =>
    constructor <;> simp [extractAux, linesOf, firstCode, code3]
  | cons c r ih =>
    by_cases hterm : isLineTerm c
    · have hshape : linesOf (c :: r) = [] :: linesOf r := by simp [linesOf, hterm]
      have hc3 : code3 (c :: r) = none := by
        rw [code3_linesHead (c :: r), hshape]
        rfl
      constructor
      · simp only [extractAux, hc3, hterm, hshape, firstCode_cons]
        exact ih.1
      · simp only [extractAux, hterm, hshape, List.drop_succ_cons, List.drop_zero]
        exact ih.1
    · rcases hlr : linesOf r with _ | ⟨h, t⟩
      · exact absurd hlr (linesOf_ne_nil r)
      have hshape : linesOf (c :: r) = (c :: h) :: t := by
        simp [linesOf, hterm, hlr]
      have hc3 : code3 (c :: r) = code3 (c :: h) := by
        rw [code3_linesHead (c :: r), hshape]
        rfl
      have hfalse : extractAux false (c :: r) = firstCode t := by
        simp only [extractAux, hterm]
        have := ih.2
        rw [hlr] at this
        simpa using this
      constructor
      · cases hch : code3 (c :: h) with
        | some n =>
          simp only [extractAux, if_true, hc3, hch, hshape, firstCode_cons]
        | none =>
          simp only [extractAux, if_true, hc3, hch, hterm, hshape, firstCode_cons]
          have := ih.2
          rw [hlr] at this
          simpa using this
      · simp only [hshape, List.drop_succ_cons, List.drop_zero]
        exact hfalse

/-- C5 (amended): the parser extracts the leading 3-digit code of the first
line that begins with three digits, returning 0 when no line does (the
original wording "first line that begins with digits" fails on
"25 x\n550 y", see the counterexample); and `expect` reads one line and
fails with the unexpected-response error carrying the parsed code and the
raw text exactly when the parsed code is outside the accepted set, otherwise
returning the raw response. -/
theorem claim_C5 :
    (∀ s : Str, extractCode s = extractCodeAmended s) ∧
    (∀ (codes : List Nat) (resp : Str) (rest : List ReadO) (wk : List Bool)
      (tls : Bool) (tr pl : List Str) (tla : Bool) (c1 c2 c3 c4 c5 c6 : Nat),
      (extractCode resp ∈ codes →
        expectM codes ⟨ReadO.line resp :: rest, wk, tls, tr, pl, tla,
            c1, c2, c3, c4, c5, c6⟩ =
          (.ok resp, ⟨rest, wk, tls, tr, pl, tla, c1, c2, c3, c4, c5, c6⟩)) ∧
      (extractCode resp ∉ codes →
        expectM codes ⟨ReadO.line resp :: rest, wk, tls, tr, pl, tla,
            c1, c2, c3, c4, c5, c6⟩ =
          (.error (.eunexpected (extractCode resp) resp),
            ⟨rest, wk, tls, tr, pl, tla, c1, c2, c3, c4, c5, c6⟩))) := by
  constructor
  · intro s
    have hx := (extractAux_lines s).1
    rw [extractCode, hx, extractCodeAmended, firstCode]
    cases hf : (linesOf s).find? (fun l => (code3 l).isSome) with
    | none => rfl
    | some l =>
      have hsome : (code3 l).isSome = true := by
        have := List.find?_some hf
        simpa using this
      cases hc : code3 l with
      | none => simp [hc] at hsome
      | some n => rfl
  · intro codes resp rest wk tls tr pl tla c1 c2 c3 c4 c5 c6
    exact ⟨fun h => expectM_okRun codes resp rest wk tls tr pl tla
        c1 c2 c3 c4 c5 c6 h,
      fun h => expectM_failRun codes resp rest wk tls tr pl tla
        c1 c2 c3 c4 c5 c6 h⟩

/-- Witness for C5: the parser on "250 OK", and `expect` accepting code 250
and rejecting code 550 with the carried code and raw text. -/
theorem claim_C5_witness :
    (extractCode "250 OK\r\n".data = extractCodeAmended "250 OK\r\n".data) ∧
    (extractCode "250 OK\r\n".data ∈ [250] ∧
      expectM [250] ⟨ReadO.line "250 OK\r\n".data :: [], [], true, [], [],
          false, 0, 0, 0, 0, 0, 0⟩ =
        (.ok "250 OK\r\n".data, ⟨[], [], true, [], [], false, 0, 0, 0, 0, 0, 0⟩)) ∧
    (extractCode "550 no\r\n".data ∉ [250] ∧
      expectM [250] ⟨ReadO.line "550 no\r\n".data :: [], [], true, [], [],
          false, 0, 0, 0, 0, 0, 0⟩ =
        (.error (.eunexpected (extractCode "550 no\r\n".data) "550 no\r\n".data),
          ⟨[], [], true, [], [], false, 0, 0, 0, 0, 0, 0⟩)) :=
  ⟨claim_C5.1 "250 OK\r\n".data,
    ⟨by decide, (claim_C5.2 [250] "250 OK\r\n".data [] [] true [] [] false
      0 0 0 0 0 0).1 (by decide)⟩,
    ⟨by decide, (claim_C5.2 [250] "550 no\r\n".data [] [] true [] [] false
      0 0 0 0 0 0).2 (by decide)⟩⟩

/-- Counterexample to C5 as stated: on "25 x\n550 y" the first line begins
with digits but not with a 3-digit code; the implementation scans on and
returns 550, while the claimed wording yields 0. -/
theorem claim_C5_counterexample :
    extractCode "25 x\n550 y".data = 550 ∧
    extractCodeClaim "25 x\n550 y".data = 0 ∧
    extractCode "25 x\n550 y".data ≠ extractCodeClaim "25 x\n550 y".data := by
  decide

/-- The composed message as a function of the boundary token: everything
except the three boundary occurrences depends only on the four inputs, and
the same token appears in the Content-Type header declaration, the opening
`--boundary` delimiter and the closing `--boundary--` delimiter. -/
def mimeTemplate (from_ to_ subject html bd : Str) : Str :=
  ("From: ".data ++ from_ ++ crlf ++ "To: ".data ++ to_ ++ crlf ++
    "Subject: ".data ++ subject ++ crlf ++ "MIME-Version: 1.0".data ++ crlf ++
    "Content-Type: multipart/alternative; boundary=\"".data) ++ bd ++
  ("\"".data ++ crlf ++ crlf ++ "--".data) ++ bd ++
  (crlf ++ "Content-Type: text/html; charset=utf-8".data ++ crlf ++
    "Content-Transfer-Encoding: 7bit".data ++ crlf ++ crlf ++ html ++ crlf ++
    "--".data) ++ bd ++
  ("--".data ++ crlf)

/-- Scan for CRLF purity in the middle of a document: `p` records whether
the previous character was CR; an LF must be preceded by CR, and a CR must
be followed by LF. -/
def crlfMidAux : Bool → Str → Bool
  | p, [] => true
  | p, c :: r =>
    if c = '\n' then p && crlfMidAux false r
    else (!p) && crlfMidAux (c = '\r') r

/-- Whether the last character (or, for an empty string, the incoming state)
is CR. -/
def endsCR : Bool → Str → Bool
  | p, [] => p
  | _, c :: r => endsCR (c = '\r') r

/-- CRLF purity of a whole document: as `crlfMidAux` from a non-CR start,
and additionally no trailing lone CR. -/
def crlfOkAux : Bool → Str → Bool
  | p, [] => !p
  | p, c :: r =>
    if c = '\n' then p && crlfOkAux false r
    else (!p) && crlfOkAux (c = '\r') r

/-- Every LF in `s` is part of a CRLF pair and every CR is part of a CRLF
pair. -/
def crlfPure (s : Str) : Bool := crlfOkAux false s

theorem crlfOkAux_append (a b : Str) : ∀ p : Bool,
    crlfOkAux p (a ++ b) = (crlfMidAux p a && crlfOkAux (endsCR p a) b) := by
  induction a with
  | nil => intro p; simp [crlfMidAux, endsCR]
  | cons c r ih =>
    intro p
    by_cases hc : c = '\n'
    · simp [crlfOkAux, crlfMidAux, endsCR, hc, ih, Bool.and_assoc]
    · simp [crlfOkAux, crlfMidAux, endsCR, hc, ih, Bool.and_assoc]

theorem clean_input (s : Str) (hn : '\n' ∉ s) (hr : '\r' ∉ s) :
    crlfMidAux false s = true ∧ endsCR false s = false := by
  induction s with
  | nil => exact ⟨rfl, rfl⟩
  | cons c r ih =>
    have hcn : ¬c = '\n' := fun h => hn (h ▸ List.mem_cons_self c r)
    have hcr : ¬c = '\r' := fun h => hr (h ▸ List.mem_cons_self c r)
    have hn2 : '\n' ∉ r := fun h => hn (List.mem_cons_of_mem c h)
    have hr2 : '\r' ∉ r := fun h => hr (List.mem_cons_of_mem c h)
    obtain ⟨ih1, ih2⟩ := ih hn2 hr2
    constructor
    · simp [crlfMidAux, hcn, hcr, ih1]
    · simp [endsCR, hcr, ih2]

/-- Concatenation of a list of segments. -/
def joinParts : List Str → Str
  | [] => []
  | x :: r => x ++ joinParts r

theorem crlfOkAux_joinParts (parts : List Str)
    (h : ∀ x ∈ parts, crlfMidAux false x = true ∧ endsCR false x = false) :
    crlfOkAux false (joinParts parts) = true := by
  induction parts with
  | nil => rfl
  | cons x r ih =>
    obtain ⟨h1, h2⟩ := h x (List.mem_cons_self x r)
    have hr := ih (fun y hy => h y (List.mem_cons_of_mem x hy))
    simp [joinParts, crlfOkAux_append, h1, h2, hr]

theorem makeMime_parts (rand from_ to_ subject html : Str) :
    makeMime rand from_ to_ subject html =
      joinParts ["From: ".data, from_, crlf, "To: ".data, to_, crlf,
        "Subject: ".data, subject, crlf, "MIME-Version: 1.0".data, crlf,
        "Content-Type: multipart/alternative; boundary=\"".data,
        "----wm".data, rand, "\"".data, crlf, crlf,
        "--".data, "----wm".data, rand, crlf,
        "Content-Type: text/html; charset=utf-8".data, crlf,
        "Content-Transfer-Encoding: 7bit".data, crlf, crlf, html, crlf,
        "--".data, "----wm".data, rand, "--".data, crlf] := by
  simp [makeMime, joinParts, List.append_assoc]

set_option maxRecDepth 8192 in
/-- C9 (amended): the composed message is a fixed template of the four
inputs with the boundary token `"----wm" + rand` substituted at exactly its
three occurrences — the Content-Type header declaration, the opening
delimiter and the closing delimiter — so two calls with identical inputs
differ only in the boundary token; and every line ending the composer itself
introduces is CRLF: whenever the inputs are free of bare CR and LF the whole
message is CRLF-pure (an input containing a bare LF is embedded verbatim,
see the counterexample). -/
theorem claim_C9 :
    (∀ rand from_ to_ subject html : Str,
      makeMime rand from_ to_ subject html =
        mimeTemplate from_ to_ subject html ("----wm".data ++ rand)) ∧
    (∀ rand from_ to_ subject html : Str,
      '\n' ∉ rand → '\r' ∉ rand → '\n' ∉ from_ → '\r' ∉ from_ →
      '\n' ∉ to_ → '\r' ∉ to_ → '\n' ∉ subject → '\r' ∉ subject →
      '\n' ∉ html → '\r' ∉ html →
      crlfPure (makeMime rand from_ to_ subject html) = true) := by
  constructor
  · intro rand from_ to_ subject html
    simp [makeMime, mimeTemplate, List.append_assoc]
  · intro rand from_ to_ subject html hn1 hr1 hn2 hr2 hn3 hr3 hn4 hr4 hn5 hr5
    rw [crlfPure, makeMime_parts]
    apply crlfOkAux_joinParts
    intro x hx
    simp only [List.mem_cons, List.not_mem_nil, or_false] at hx
    rcases hx with rfl | rfl | rfl | rfl | rfl | rfl | rfl | rfl | rfl | rfl |
      rfl | rfl | rfl | rfl | rfl | rfl | rfl | rfl | rfl | rfl | rfl | rfl |
      rfl | rfl | rfl | rfl | rfl | rfl | rfl | rfl | rfl | rfl | rfl
    · exact ⟨by decide, by decide⟩
    · exact clean_input _ hn2 hr2
    · exact ⟨by decide, by decide⟩
    · exact ⟨by decide, by decide⟩
    · exact clean_input _ hn3 hr3
    · exact ⟨by decide, by decide⟩
    · exact ⟨by decide, by decide⟩
    · exact clean_input _ hn4 hr4
    · exact ⟨by decide, by decide⟩
    · exact ⟨by decide, by decide⟩
    · exact ⟨by decide, by decide⟩
    · exact ⟨by decide, by decide⟩
    · exact ⟨by decide, by decide⟩
    · exact clean_input _ hn1 hr1
    · exact ⟨by decide, by decide⟩
    · exact ⟨by decide, by decide⟩
    · exact ⟨by decide, by decide⟩
    · exact ⟨by decide, by decide⟩
    · exact ⟨by decide, by decide⟩
    · exact clean_input _ hn1 hr1
    · exact ⟨by decide, by decide⟩
    · exact ⟨by decide, by decide⟩
    · exact ⟨by decide, by decide⟩
    · exact ⟨by decide, by decide⟩
    · exact ⟨by decide, by decide⟩
    · exact ⟨by decide, by decide⟩
    · exact clean_input _ hn5 hr5
    · exact ⟨by decide, by decide⟩
    · exact ⟨by decide, by decide⟩
    · exact ⟨by decide, by decide⟩
    · exact clean_input _ hn1 hr1
    · exact ⟨by decide, by decide⟩
    · exact ⟨by decide, by decide⟩

set_option maxRecDepth 8192 in
/-- Witness for C9: the template identity at concrete inputs, and CRLF
purity of a concrete composed message with clean inputs. -/
theorem claim_C9_witness :
    (makeMime "1a2b".data "f@x".data "a@b".data "s".data "<b>t</b>".data =
      mimeTemplate "f@x".data "a@b".data "s".data "<b>t</b>".data
        ("----wm".data ++ "1a2b".data)) ∧
    ('\n' ∉ "<b>t</b>".data ∧
      crlfPure (makeMime "1a2b".data "f@x".data "a@b".data "s".data
        "<b>t</b>".data) = true) :=
  ⟨claim_C9.1 "1a2b".data "f@x".data "a@b".data "s".data "<b>t</b>".data,
    by decide,
    claim_C9.2 "1a2b".data "f@x".data "a@b".data "s".data "<b>t</b>".data
      (by decide) (by decide) (by decide) (by decide) (by decide) (by decide)
      (by decide) (by decide) (by decide) (by decide)⟩

set_option maxRecDepth 8192 in
/-- Counterexample to C9 as stated: an HTML body containing a bare LF is
embedded verbatim, so not all line endings of the composed message are
CRLF. -/
theorem claim_C9_counterexample :
    crlfPure (makeMime "1a2b".data "f".data "t".data "s".data "a\nb".data) =
      false := by decide

end WM
